import Mathlib

/-!
Shallow embedding of the per-actor physics / action-state core of
`src/src/game/mario_step.c` and `src/src/game/mario_actions_airborne.c`.

Machine `f32` values are modelled as exact rationals (`ℚ`); for the one
claim about IEEE non-finite propagation a separate `FQ := Option ℚ` model
is used in which `none` stands for a non-finite value (NaN / infinity).
Signed 16-bit angle arithmetic is modelled on `ℤ` with an explicit wrap.
External collaborators (surface queries, trigonometry tables, scripting
hooks, server settings) are passed in as an explicit environment record,
mirroring the narrow interfaces listed in the spec.
-/

/-- 3-component float vector (`Vec3f`), components modelled as `ℚ`. -/
structure Vec3 where
  x : ℚ
  y : ℚ
  z : ℚ
  deriving DecidableEq, Repr

/-- Collision surface: the fields of `struct Surface` that this core reads
(type tag, push force, flags and the unit normal). -/
structure Surface where
  type : ℕ
  flags : ℕ
  force : ℤ
  normalX : ℚ
  normalY : ℚ
  normalZ : ℚ
  deriving DecidableEq, Repr

/-- Result tags of `perform_air_quarter_step` / `perform_air_step`
(`AIR_STEP_NONE` is the numeric value 0 in the source). -/
inductive AirStepResult where
  | airNone
  | landed
  | hitWall
  | grabbedLedge
  | grabbedCeiling
  | hitLavaWall
  deriving DecidableEq, Repr

/-- Result tags of the ground stepper (`GROUND_STEP_NONE` is 0). -/
inductive GroundStepResult where
  | groundNone
  | leftGround
  | hitWall
  | hitWallStopQsteps
  | hitWallContinueQsteps
  deriving DecidableEq, Repr

-- Surface type tags (surface_terrains.h, not under src/; values as in the headers).
def SURFACE_DEFAULT : ℕ := 0x0000
def SURFACE_BURNING : ℕ := 0x0001
def SURFACE_HANGABLE : ℕ := 0x0005
def SURFACE_VERY_SLIPPERY : ℕ := 0x0013
def SURFACE_SHALLOW_QUICKSAND : ℕ := 0x0021
def SURFACE_DEEP_QUICKSAND : ℕ := 0x0022
def SURFACE_INSTANT_QUICKSAND : ℕ := 0x0023
def SURFACE_DEEP_MOVING_QUICKSAND : ℕ := 0x0024
def SURFACE_SHALLOW_MOVING_QUICKSAND : ℕ := 0x0025
def SURFACE_QUICKSAND : ℕ := 0x0026
def SURFACE_MOVING_QUICKSAND : ℕ := 0x0027
def SURFACE_HORIZONTAL_WIND : ℕ := 0x002C
def SURFACE_INSTANT_MOVING_QUICKSAND : ℕ := 0x002D
def SURFACE_HARD : ℕ := 0x0030
def SURFACE_HARD_SLIPPERY : ℕ := 0x0035
def SURFACE_HARD_VERY_SLIPPERY : ℕ := 0x0036
def SURFACE_HARD_NOT_SLIPPERY : ℕ := 0x0037
def SURFACE_VERTICAL_WIND : ℕ := 0x0038

-- Action flags (sm64.h, not under src/).
def ACT_FLAG_STATIONARY : ℕ := 1 <<< 9
def ACT_FLAG_MOVING : ℕ := 1 <<< 10
def ACT_FLAG_AIR : ℕ := 1 <<< 11
def ACT_FLAG_INTANGIBLE : ℕ := 1 <<< 12
def ACT_FLAG_SWIMMING : ℕ := 1 <<< 13
def ACT_FLAG_METAL_WATER : ℕ := 1 <<< 14
def ACT_FLAG_RIDING_SHELL : ℕ := 1 <<< 16
def ACT_FLAG_INVULNERABLE : ℕ := 1 <<< 17
def ACT_FLAG_ALLOW_VERTICAL_WIND_ACTION : ℕ := 1 <<< 24
def ACT_FLAG_CONTROL_JUMP_HEIGHT : ℕ := 1 <<< 25

-- Airborne action identifiers (sm64.h, not under src/).
def ACT_JUMP : ℕ := 0x03000880
def ACT_DOUBLE_JUMP : ℕ := 0x03000881
def ACT_TRIPLE_JUMP : ℕ := 0x01000882
def ACT_BACKFLIP : ℕ := 0x01000883
def ACT_STEEP_JUMP : ℕ := 0x03000885
def ACT_WALL_KICK_AIR : ℕ := 0x03000886
def ACT_SIDE_FLIP : ℕ := 0x01000887
def ACT_LONG_JUMP : ℕ := 0x03000888
def ACT_WATER_JUMP : ℕ := 0x01000889
def ACT_DIVE : ℕ := 0x0188088A
def ACT_FREEFALL : ℕ := 0x0100088C
def ACT_TOP_OF_POLE_JUMP : ℕ := 0x0300088D
def ACT_BUTT_SLIDE_AIR : ℕ := 0x0300088E
def ACT_FLYING_TRIPLE_JUMP : ℕ := 0x03000894
def ACT_SHOT_FROM_CANNON : ℕ := 0x00880898
def ACT_FLYING : ℕ := 0x10880899
def ACT_RIDING_SHELL_JUMP : ℕ := 0x0281089A
def ACT_RIDING_SHELL_FALL : ℕ := 0x0081089B
def ACT_VERTICAL_WIND : ℕ := 0x1008089C
def ACT_HOLD_JUMP : ℕ := 0x030008A0
def ACT_HOLD_FREEFALL : ℕ := 0x010008A1
def ACT_HOLD_BUTT_SLIDE_AIR : ℕ := 0x010008A2
def ACT_HOLD_WATER_JUMP : ℕ := 0x010008A3
def ACT_TWIRLING : ℕ := 0x108008A4
def ACT_FORWARD_ROLLOUT : ℕ := 0x010008A6
def ACT_AIR_HIT_WALL : ℕ := 0x000008A7
def ACT_RIDING_HOOT : ℕ := 0x000004A8
def ACT_GROUND_POUND : ℕ := 0x008008A9
def ACT_SLIDE_KICK : ℕ := 0x018008AA
def ACT_AIR_THROW : ℕ := 0x830008AB
def ACT_JUMP_KICK : ℕ := 0x018008AC
def ACT_BACKWARD_ROLLOUT : ℕ := 0x010008AD
def ACT_CRAZY_BOX_BOUNCE : ℕ := 0x000008AE
def ACT_SPECIAL_TRIPLE_JUMP : ℕ := 0x030008AF
def ACT_BACKWARD_AIR_KB : ℕ := 0x010208B0
def ACT_FORWARD_AIR_KB : ℕ := 0x010208B1
def ACT_HARD_FORWARD_AIR_KB : ℕ := 0x010208B2
def ACT_HARD_BACKWARD_AIR_KB : ℕ := 0x010208B3
def ACT_BURNING_JUMP : ℕ := 0x010208B4
def ACT_BURNING_FALL : ℕ := 0x010208B5
def ACT_SOFT_BONK : ℕ := 0x010208B6
def ACT_LAVA_BOOST : ℕ := 0x010208B7
def ACT_GETTING_BLOWN : ℕ := 0x010208B8
def ACT_THROWN_FORWARD : ℕ := 0x010208BD
def ACT_THROWN_BACKWARD : ℕ := 0x010208BE
def ACT_BBH_ENTER_SPIN : ℕ := 0x00001535
def ACT_FALL_AFTER_STAR_GRAB : ℕ := 0x00001904
def ACT_BUBBLED : ℕ := 0x010024E7
def ACT_QUICKSAND_DEATH : ℕ := 0x00021312
def ACT_SQUISHED : ℕ := 0x00008219
def ACT_WATER_PLUNGE : ℕ := 0x300022E2
def ACT_HARD_BACKWARD_GROUND_KB : ℕ := 0x00020460
def ACT_FEET_STUCK_IN_GROUND : ℕ := 0x00030600
def ACT_BUTT_STUCK_IN_GROUND : ℕ := 0x00030570
def ACT_GROUND_POUND_LAND : ℕ := 0x0080023C
def ACT_BURNING_GROUND : ℕ := 0x00020669

-- Mario status flags and input bits (sm64.h, not under src/).
def MARIO_NORMAL_CAP : ℕ := 0x00000001
def MARIO_METAL_CAP : ℕ := 0x00000004
def MARIO_WING_CAP : ℕ := 0x00000008
def MARIO_CAP_ON_HEAD : ℕ := 0x00000010
def MARIO_UNKNOWN_08 : ℕ := 0x00000100
def MARIO_ACTION_SOUND_PLAYED : ℕ := 0x00010000
def MARIO_MARIO_SOUND_PLAYED : ℕ := 0x00020000
def MARIO_UNKNOWN_18 : ℕ := 0x00040000
def MARIO_UNKNOWN_30 : ℕ := 0x40000000
def INPUT_SQUISHED : ℕ := 0x0040
def INPUT_A_DOWN : ℕ := 0x0080
def INPUT_B_PRESSED : ℕ := 0x2000

-- Stepper argument bits and hazard identifiers.
def AIR_STEP_CHECK_LEDGE_GRAB : ℕ := 0x00000001
def AIR_STEP_CHECK_HANG : ℕ := 0x00000002
def HAZARD_TYPE_QUICKSAND : ℕ := 1
def HAZARD_TYPE_HORIZONTAL_WIND : ℕ := 2
def HAZARD_TYPE_VERTICAL_WIND : ℕ := 3
def HAZARD_TYPE_LAVA_WALL : ℕ := 4
def BOUNCY_LEVEL_BOUNDS_OFF : ℕ := 0
def BOUNCY_LEVEL_BOUNDS_ON_CAP : ℕ := 2

-- Terrain types (surface_terrains.h, not under src/).
def TERRAIN_GRASS : ℕ := 0
def TERRAIN_SNOW : ℕ := 2
def TERRAIN_SAND : ℕ := 3
def TERRAIN_MASK : ℕ := 7

/-- The mutable per-actor record: the fields of `struct MarioState` (plus
`marioObj->hitboxHeight`, the held-object flag, the area terrain type and the
presentation-state mirror fields) that the embedded functions read or write. -/
structure MarioState where
  pos : Vec3
  vel : Vec3
  faceAnglePitch : ℤ
  faceAngleYaw : ℤ
  angleVelYaw : ℤ
  slideYaw : ℤ
  floorAngle : ℤ
  action : ℕ
  prevAction : ℕ
  actionState : ℕ
  actionTimer : ℕ
  actionArg : ℕ
  flags : ℕ
  input : ℕ
  forwardVel : ℚ
  slideVelX : ℚ
  slideVelZ : ℚ
  floor : Option Surface
  floorHeight : ℚ
  ceil : Option Surface
  ceilHeight : ℚ
  wall : Option Surface
  wallNormal : Vec3
  waterLevel : ℤ
  peakHeight : ℚ
  quicksandDepth : ℚ
  hurtCounter : ℕ
  squishTimer : ℕ
  health : ℤ
  hitboxHeight : ℚ
  heldObj : Bool
  playerIndex : ℕ
  unkC4 : ℚ
  terrainType : ℕ
  terrainSoundAddend : ℕ
  curAnimLoopEnd : ℕ
  particleFlags : ℕ
  wingFlutter : Bool
  gfxPos : Vec3
  gfxAngleYaw : ℤ
  deriving DecidableEq, Repr

/-- External collaborators of the core: the surface query service, the
trigonometry tables, the scripting hook surface and the server settings,
passed in explicitly (spec §2, §6). `resolveWalls` takes the global wall
search direction, the probe position and the probe offset/radius and returns
the displaced position together with the candidate walls. -/
structure Env where
  resolveWalls : Vec3 → Vec3 → ℚ → ℚ → Vec3 × List Surface
  findFloor : Vec3 → ℚ × Option Surface
  marioCeil : Vec3 → ℚ → ℚ × Option Surface
  findWaterLevel : ℚ → ℚ → ℚ
  atan2s : ℚ → ℚ → ℤ
  sins : ℤ → ℚ
  coss : ℤ → ℚ
  sqrtq : ℚ → ℚ
  beforePhysStepAir : Option AirStepResult
  beforePhysStepGround : Option GroundStepResult
  overrideDefactoSpeed : Option ℚ
  gravityHook : Option (MarioState → MarioState)
  everyFrameHook : Option Bool
  allowHazard : ℕ → Bool
  allowForceWater : Bool
  inMainMenu : Bool
  bouncyLevelBounds : ℕ
  fixCollisionBugs : Bool
  fixCollisionBugsFalseLedgeGrab : Bool
  fixCollisionBugsGroundPoundBonks : Bool
  globalTimer : ℕ
  floorIsSlippery : MarioState → Bool
  getTerrainSoundAddend : MarioState → ℕ
  handlers : ℕ → MarioState → MarioState × Bool

/-- Wrap an integer into the signed 16-bit range, the storage format of all
angle fields (spec §9: fixed-point angles with intentional wraparound). -/
def wrapS16 (x : ℤ) : ℤ :=
  (x + 32768) % 65536 - 32768

/-- `clamp` from the source tree headers: clamp a value to `[lo, hi]`. -/
def clampQ (x lo hi : ℚ) : ℚ :=
  if x < lo then lo else if x > hi then hi else x

/-- The synthetic water-surface floor `gWaterSurfacePseudoFloor`
substituted under shell-riding actors (mario_step.c). -/
def gWaterSurfacePseudoFloor : Surface :=
  { type := SURFACE_VERY_SLIPPERY, flags := 0, force := 0,
    normalX := 0, normalY := 1, normalZ := 0 }

/-- Modelled from the spec: the set-action primitive (§4.1) — changing the
action identifier records the previous identifier, stores the supplied
argument and resets the action-local state and timer to 0. The primitive
itself lives in mario.c, which is not under src/. Returns TRUE. -/
def set_mario_action (m : MarioState) (action arg : ℕ) : MarioState × Bool :=
  ({ m with prevAction := m.action, action := action, actionArg := arg,
            actionState := 0, actionTimer := 0 }, true)

/-- Modelled from the spec: the drop-and-set variant of the set-action
primitive (§4.1) additionally releases any held object before the
transition. Lives in mario.c, not under src/. -/
def drop_and_set_mario_action (m : MarioState) (action arg : ℕ) : MarioState × Bool :=
  set_mario_action { m with heldObj := false } action arg

/-- Modelled from the spec: the forced water-entry transition (§4.1 cancel
(1)); lives in mario.c, not under src/. -/
def set_water_plunge_action (m : MarioState) : MarioState × Bool :=
  set_mario_action { m with faceAnglePitch := 0 } ACT_WATER_PLUNGE 0

/-- Modelled from the spec: `mario_set_forward_vel` (mario.c, not under
src/) stores the scalar forward velocity and recomputes the slide and
horizontal velocity components from the facing yaw (spec §3 invariant:
`vel.xz` is derivable from forwardVel and faceAngle.y). -/
def mario_set_forward_vel (env : Env) (m : MarioState) (speed : ℚ) : MarioState :=
  let sx := speed * env.sins m.faceAngleYaw
  let sz := speed * env.coss m.faceAngleYaw
  { m with forwardVel := speed, slideVelX := sx, slideVelZ := sz,
           vel := { m.vel with x := sx, z := sz } }

/-- Modelled from the spec: `mario_update_wall` (mario.c, not under src/)
refreshes the actor's non-owning wall reference from the candidate walls
returned by the surface query (spec §3). -/
def mario_update_wall (m : MarioState) (walls : List Surface) : MarioState :=
  match walls.getLast? with
  | some w => { m with wall := some w,
                       wallNormal := { x := w.normalX, y := w.normalY, z := w.normalZ } }
  | none => m

/-- Modelled from the spec: `vec3f_normalize` (engine/math_util, not under
src/) scales a vector to unit length using the float square root; only its
output feeds the wall-query direction. -/
def vec3f_normalize (sqrtq : ℚ → ℚ) (v : Vec3) : Vec3 :=
  let mag := sqrtq (v.x * v.x + v.y * v.y + v.z * v.z)
  if mag = 0 then v else { x := v.x / mag, y := v.y / mag, z := v.z / mag }

/-! ### Float model with non-finite propagation (for `transfer_bully_speed`)

`FQ` models an `f32` as either a finite rational (`some q`) or a non-finite
value (`none`, covering NaN and the infinities). Arithmetic propagates
non-finiteness; division by zero produces a non-finite value. -/

/-- A float that is either finite (`some q`) or non-finite (`none`). -/
def FQ : Type := Option ℚ
deriving DecidableEq, Repr

/-- Finite literal. -/
def FQ.fin (q : ℚ) : FQ := some q

def fqAdd : FQ → FQ → FQ
  | some a, some b => some (a + b)
  | _, _ => none

def fqSub : FQ → FQ → FQ
  | some a, some b => some (a - b)
  | _, _ => none

def fqMul : FQ → FQ → FQ
  | some a, some b => some (a * b)
  | _, _ => none

def fqNeg : FQ → FQ
  | some a => some (-a)
  | _ => none

/-- IEEE division, collapsing `x/0` (infinity or NaN) into `none`. -/
def fqDiv : FQ → FQ → FQ
  | some a, some b => if b = 0 then none else some (a / b)
  | _, _ => none

/-- The bully collision record (`struct BullyCollisionData`). -/
structure BullyCollisionData where
  posX : FQ
  posZ : FQ
  velX : FQ
  velZ : FQ
  conversionRatio : FQ
  radius : FQ
  deriving DecidableEq, Repr

/-- `transfer_bully_speed` (mario_step.c): transfers the impulse along the
line between the two bodies, dividing by the squared horizontal distance
with no guard (the source marks this `Bully NaN crash`). -/
def transfer_bully_speed (obj1 obj2 : BullyCollisionData) :
    BullyCollisionData × BullyCollisionData :=
  let rx := fqSub obj2.posX obj1.posX
  let rz := fqSub obj2.posZ obj1.posZ
  let denom := fqAdd (fqMul rx rx) (fqMul rz rz)
  let projectedV1 := fqDiv (fqAdd (fqMul rx obj1.velX) (fqMul rz obj1.velZ)) denom
  let projectedV2 := fqDiv (fqSub (fqMul (fqNeg rx) obj2.velX) (fqMul rz obj2.velZ)) denom
  let obj2' := { obj2 with
    velX := fqAdd obj2.velX (fqSub (fqMul obj2.conversionRatio (fqMul projectedV1 rx))
                                   (fqMul projectedV2 (fqNeg rx))),
    velZ := fqAdd obj2.velZ (fqSub (fqMul obj2.conversionRatio (fqMul projectedV1 rz))
                                   (fqMul projectedV2 (fqNeg rz))) }
  let obj1' := { obj1 with
    velX := fqAdd obj1.velX (fqAdd (fqMul (fqNeg projectedV1) rx)
                                   (fqMul obj1.conversionRatio (fqMul projectedV2 (fqNeg rx)))),
    velZ := fqAdd obj1.velZ (fqAdd (fqMul (fqNeg projectedV1) rz)
                                   (fqMul obj1.conversionRatio (fqMul projectedV2 (fqNeg rz)))) }
  (obj1', obj2')

/-! ### Environmental surface-interaction helpers (mario_step.c) -/

/-- `mario_update_quicksand` (mario_step.c): per-surface-sub-type quicksand
depth accumulation; the deepest continuous variants trigger the
quicksand-death transition when the accumulated depth reaches the actor's
hitbox height, the instant variants trigger it unconditionally. -/
def mario_update_quicksand (env : Env) (m : MarioState) (sinkingSpeed : ℚ) :
    MarioState × Bool :=
  if m.action &&& ACT_FLAG_RIDING_SHELL ≠ 0 ∨ env.allowHazard HAZARD_TYPE_QUICKSAND = false
     ∨ env.inMainMenu = true then
    ({ m with quicksandDepth := 0 }, false)
  else
    let m := if m.quicksandDepth < 1.1 then { m with quicksandDepth := 1.1 } else m
    let floorType := match m.floor with | some f => f.type | none => SURFACE_DEFAULT
    if floorType = SURFACE_SHALLOW_QUICKSAND then
      let d := m.quicksandDepth + sinkingSpeed
      ({ m with quicksandDepth := if d ≥ 10 then 10 else d }, false)
    else if floorType = SURFACE_SHALLOW_MOVING_QUICKSAND then
      let d := m.quicksandDepth + sinkingSpeed
      ({ m with quicksandDepth := if d ≥ 25 then 25 else d }, false)
    else if floorType = SURFACE_QUICKSAND ∨ floorType = SURFACE_MOVING_QUICKSAND then
      let d := m.quicksandDepth + sinkingSpeed
      ({ m with quicksandDepth := if d ≥ 60 then 60 else d }, false)
    else if floorType = SURFACE_DEEP_QUICKSAND ∨ floorType = SURFACE_DEEP_MOVING_QUICKSAND then
      let d := m.quicksandDepth + sinkingSpeed
      let m := { m with quicksandDepth := d }
      if d ≥ m.hitboxHeight then drop_and_set_mario_action m ACT_QUICKSAND_DEATH 0
      else (m, false)
    else if floorType = SURFACE_INSTANT_QUICKSAND ∨ floorType = SURFACE_INSTANT_MOVING_QUICKSAND then
      drop_and_set_mario_action m ACT_QUICKSAND_DEATH 0
    else
      ({ m with quicksandDepth := 0 }, false)

/-- The bouncy-level-bounds reaction applied when a step probes out of
bounds (mario_step.c, inline in both quarter steppers): reverse the facing
yaw and scale the forward velocity, optionally clamping it. -/
def bouncy_bounds_bounce (env : Env) (m : MarioState) : MarioState :=
  if env.bouncyLevelBounds ≠ BOUNCY_LEVEL_BOUNDS_OFF then
    let m := { m with faceAngleYaw := wrapS16 (m.faceAngleYaw + 0x8000) }
    mario_set_forward_vel env m
      (if env.bouncyLevelBounds = BOUNCY_LEVEL_BOUNDS_ON_CAP then
        clampQ (1.5 * m.forwardVel) (-500) 500
       else 1.5 * m.forwardVel)
  else m

/-- `check_ledge_grab` (mario_step.c): attempt to grab a ledge at the given
candidate wall; fails when moving upward, when the wall displacement is not
opposed to the velocity, when no ledge floor exists at the 60-unit offset
probe, (under the bug-fix toggle) when the ledge floor is too shallow, or
when the ledge lip is at most 100 units above the target height. On success
snaps the position to the ledge, adopts the ledge floor and re-orients the
facing away from the wall. -/
def check_ledge_grab (env : Env) (m : MarioState) (wall : Surface)
    (intendedPos nextPos : Vec3) : MarioState × Bool :=
  if m.vel.y > 0 then (m, false)
  else
    let displacementX := nextPos.x - intendedPos.x
    let displacementZ := nextPos.z - intendedPos.z
    if displacementX * m.vel.x + displacementZ * m.vel.z > 0 then (m, false)
    else
      let lx := nextPos.x - wall.normalX * 60
      let lz := nextPos.z - wall.normalZ * 60
      let fres := env.findFloor { x := lx, y := nextPos.y + m.hitboxHeight, z := lz }
      match fres.2 with
      | none => (m, false)
      | some ledgeFloor =>
        if env.fixCollisionBugs = true ∧ env.fixCollisionBugsFalseLedgeGrab = true
           ∧ ledgeFloor.normalY < 0.90630779 then
          (m, false)
        else if fres.1 - nextPos.y ≤ 100 then (m, false)
        else
          ({ m with pos := { x := lx, y := fres.1, z := lz },
                    floor := some ledgeFloor, floorHeight := fres.1,
                    floorAngle := wrapS16 (env.atan2s ledgeFloor.normalZ ledgeFloor.normalX),
                    faceAnglePitch := 0,
                    faceAngleYaw := wrapS16 (env.atan2s wall.normalZ wall.normalX + 0x8000) },
           true)

/-- The wall-candidate selection shared by the quarter steppers: with the
collision-bug fix off, the loop index is forced to the last candidate
(emulated legacy bug); with it on, every candidate is visited in order. -/
def legacy_wall_candidates (fix : Bool) (walls : List Surface) : List Surface :=
  if fix then walls
  else match walls.getLast? with
       | some w => [w]
       | none => []

/-- The ledge-grab candidate loop inside `perform_air_quarter_step`:
return on the first candidate whose `check_ledge_grab` succeeds. -/
def ledge_grab_loop (env : Env) (intendedPos nextPos : Vec3) :
    MarioState → List Surface → MarioState × Bool
  | m, [] => (m, false)
  | m, w :: ws =>
    let r := check_ledge_grab env m w intendedPos nextPos
    if r.2 then r else ledge_grab_loop env intendedPos nextPos r.1 ws

/-- The wall-inspection loop at the tail of `perform_air_quarter_step`:
a burning wall reports `hitLavaWall`, a wall facing the actor frontally
(yaw deviation beyond `0x6000`) reports `hitWall`, otherwise no event. -/
def air_wall_loop (env : Env) (m : MarioState) : List Surface → MarioState × AirStepResult
  | [] => (m, .airNone)
  | w :: ws =>
    let wallDYaw := wrapS16 (env.atan2s w.normalZ w.normalX - m.faceAngleYaw)
    if w.type = SURFACE_BURNING then ({ m with wall := some w }, .hitLavaWall)
    else if wallDYaw < -0x6000 ∨ wallDYaw > 0x6000 then
      ({ m with wall := some w, flags := m.flags ||| MARIO_UNKNOWN_30 }, .hitWall)
    else air_wall_loop env m ws

/-- Whether the referenced (possibly stale) ceiling is hangable — the hang
check in `perform_air_quarter_step` reads `m->ceil`, not the freshly queried
ceiling (a documented quirk in the source). -/
def ceil_is_hangable (m : MarioState) : Bool :=
  match m.ceil with
  | some c => c.type == SURFACE_HANGABLE
  | none => false

/-- `perform_air_quarter_step` (mario_step.c): resolve one quarter-step of
airborne motion toward `intendedPos`. `dir` is the wall-query direction the
caller stored in the global before the call; the two wall probes displace
the target in sequence, then floor/ceiling/water are queried at the
displaced target and the resolution policy of the source is applied in
order: out-of-bounds recovery, shell-riding water-floor substitution,
landing, ceiling, ledge grab, wall inspection. -/
def perform_air_quarter_step (env : Env) (dir : Vec3) (m0 : MarioState)
    (intendedPos : Vec3) (stepArg : ℕ) : MarioState × AirStepResult :=
  let r1 := env.resolveWalls dir intendedPos 150 50
  let r2 := env.resolveWalls dir r1.1 30 50
  let upperWalls := r1.2
  let lowerWalls := r2.2
  let nextPos := r2.1
  let ff := env.findFloor nextPos
  let fc := env.marioCeil nextPos ff.1
  let ceilHeight := fc.1
  let waterLevel := env.findWaterLevel nextPos.x nextPos.z
  let m := { m0 with wall := none }
  match ff.2 with
  | none =>
    if nextPos.y ≤ m.floorHeight then
      ({ m with pos := { m.pos with y := m.floorHeight } }, .landed)
    else
      let m := { m with pos := { m.pos with y := nextPos.y } }
      (bouncy_bounds_bounce env m, .hitWall)
  | some floorSurf =>
    let sub : Prop := m.action &&& ACT_FLAG_RIDING_SHELL ≠ 0 ∧ ff.1 < waterLevel
                      ∧ env.allowForceWater = true
    let floorHeight := if sub then waterLevel else ff.1
    let floorS := if sub then gWaterSurfacePseudoFloor else floorSurf
    if nextPos.y ≤ floorHeight then
      let m := if ceilHeight - floorHeight > m.hitboxHeight then
          { m with pos := { m.pos with x := nextPos.x, z := nextPos.z },
                   floor := some floorS, floorHeight := floorHeight }
        else m
      ({ m with pos := { m.pos with y := floorHeight } }, .landed)
    else if nextPos.y + m.hitboxHeight > ceilHeight then
      if m.vel.y ≥ 0 then
        let m := { m with vel := { m.vel with y := 0 } }
        if stepArg &&& AIR_STEP_CHECK_HANG ≠ 0 ∧ ceil_is_hangable m = true then
          (m, .grabbedCeiling)
        else (m, .airNone)
      else if nextPos.y ≤ m.floorHeight then
        ({ m with pos := { m.pos with y := m.floorHeight } }, .landed)
      else
        ({ m with pos := { m.pos with y := nextPos.y } }, .hitWall)
    else if stepArg &&& AIR_STEP_CHECK_LEDGE_GRAB ≠ 0 ∧ upperWalls = [] ∧ lowerWalls ≠ [] then
      let r := ledge_grab_loop env intendedPos nextPos m
                 (legacy_wall_candidates env.fixCollisionBugs lowerWalls)
      if r.2 then (r.1, .grabbedLedge)
      else ({ r.1 with pos := nextPos, floor := some floorS, floorHeight := floorHeight },
            .airNone)
    else
      let m := { m with pos := nextPos, floor := some floorS, floorHeight := floorHeight }
      if upperWalls ≠ [] then
        let m := mario_update_wall m upperWalls
        air_wall_loop env m (legacy_wall_candidates env.fixCollisionBugs upperWalls)
      else if lowerWalls ≠ [] then
        let m := mario_update_wall m lowerWalls
        air_wall_loop env m (legacy_wall_candidates env.fixCollisionBugs lowerWalls)
      else (m, .airNone)

/-! ### Gravity policy (mario_step.c) -/

/-- One linear-gravity update: subtract `dec` from the vertical velocity
and clamp it at the terminal velocity `floorV` (single clamp). -/
def gravityStep (m : MarioState) (dec floorV : ℚ) : MarioState :=
  let v := m.vel.y - dec
  { m with vel := { m.vel with y := if v < floorV then floorV else v } }

/-- `apply_twirl_gravity` (mario_step.c): heaviness scales with spin rate. -/
def apply_twirl_gravity (m : MarioState) : MarioState :=
  let heaviness : ℚ := if m.angleVelYaw > 1024 then 1024 / (m.angleVelYaw : ℚ) else 1
  gravityStep m (4 * heaviness) (-75 * heaviness)

/-- `should_strengthen_gravity_for_jump_ascent` (mario_step.c). -/
def should_strengthen_gravity_for_jump_ascent (m : MarioState) : Bool :=
  if m.flags &&& MARIO_UNKNOWN_08 = 0 then false
  else if m.action &&& (ACT_FLAG_INTANGIBLE ||| ACT_FLAG_INVULNERABLE) ≠ 0 then false
  else if m.input &&& INPUT_A_DOWN = 0 ∧ m.vel.y > 20 then
    decide (m.action &&& ACT_FLAG_CONTROL_JUMP_HEIGHT ≠ 0)
  else false

/-- `apply_gravity` (mario_step.c): the per-action table of vertical
acceleration rules, evaluated in fixed priority order; a scripting hook may
fully replace the computation. -/
def apply_gravity (env : Env) (m : MarioState) : MarioState :=
  match env.gravityHook with
  | some f => f m
  | none =>
    if m.action = ACT_TWIRLING ∧ m.vel.y < 0 then apply_twirl_gravity m
    else if m.action = ACT_SHOT_FROM_CANNON then gravityStep m 1 (-75)
    else if m.action = ACT_LONG_JUMP ∨ m.action = ACT_SLIDE_KICK
            ∨ m.action = ACT_BBH_ENTER_SPIN then gravityStep m 2 (-75)
    else if m.action = ACT_LAVA_BOOST ∨ m.action = ACT_FALL_AFTER_STAR_GRAB then
      gravityStep m 3.2 (-65)
    else if m.action = ACT_GETTING_BLOWN then gravityStep m m.unkC4 (-75)
    else if should_strengthen_gravity_for_jump_ascent m = true then
      { m with vel := { m.vel with y := m.vel.y / 4 } }
    else if m.action &&& ACT_FLAG_METAL_WATER ≠ 0 then gravityStep m 1.6 (-16)
    else if m.flags &&& MARIO_WING_CAP ≠ 0 ∧ m.vel.y < 0 ∧ m.input &&& INPUT_A_DOWN ≠ 0 then
      let m := { m with wingFlutter := true }
      let v : ℚ := m.vel.y - 2
      let v : ℚ := if v < (-37.5 : ℚ) then (if v + 4 > (-37.5 : ℚ) then -37.5 else v + 4) else v
      { m with vel := { m.vel with y := v } }
    else gravityStep m 4 (-75)

/-- Whether the current floor is a vertical-wind surface. -/
def floor_is_vertical_wind (m : MarioState) : Bool :=
  match m.floor with
  | some f => f.type == SURFACE_VERTICAL_WIND
  | none => false

/-- `apply_vertical_wind` (mario_step.c). -/
def apply_vertical_wind (env : Env) (m : MarioState) : MarioState :=
  if m.action ≠ ACT_GROUND_POUND ∧ env.allowHazard HAZARD_TYPE_VERTICAL_WIND = true then
    let offsetY := m.pos.y - (-1500 : ℚ)
    if floor_is_vertical_wind m = true ∧ -3000 < offsetY ∧ offsetY < 2000 then
      let maxVelY : ℚ := if offsetY ≥ 0 then 10000 / (offsetY + 200) else 50
      if m.vel.y < maxVelY then
        let v := m.vel.y + maxVelY / 8
        { m with vel := { m.vel with y := if v > maxVelY then maxVelY else v } }
      else m
    else m
  else m

/-! ### The air stepper loop (mario_step.c, `perform_air_step`) -/

/-- One iteration of the quarter-step loop of `perform_air_step`: compute
the quarter-step target from the current velocity, store the normalized
step as the wall-query direction and run the quarter step. -/
def air_qstep_iter (env : Env) (stepArg : ℕ) (m : MarioState) : MarioState × AirStepResult :=
  let step : Vec3 := { x := m.vel.x / 4, y := m.vel.y / 4, z := m.vel.z / 4 }
  let intendedPos : Vec3 :=
    { x := m.pos.x + step.x, y := m.pos.y + step.y, z := m.pos.z + step.z }
  perform_air_quarter_step env (vec3f_normalize env.sqrtq step) m intendedPos stepArg

/-- The four quarter-step results that terminate the loop early. -/
def isAirStopResult (r : AirStepResult) : Bool :=
  r == .landed || r == .grabbedLedge || r == .grabbedCeiling || r == .hitLavaWall

/-- The quarter-step loop of `perform_air_step`: up to `n` iterations,
remembering the last non-none quarter-step result in the accumulator and
breaking on the early-stop results. -/
def air_step_loop (env : Env) (stepArg : ℕ) :
    ℕ → MarioState → AirStepResult → MarioState × AirStepResult
  | 0, m, res => (m, res)
  | Nat.succ n, m, res =>
    let r := air_qstep_iter env stepArg m
    let res2 := if r.2 = AirStepResult.airNone then res else r.2
    if isAirStopResult r.2 then (r.1, res2)
    else air_step_loop env stepArg n r.1 res2

/-- The sequence of quarter-step results actually executed by the loop of
`perform_air_step` (stopping after an early-stop result), used to state the
loop's contract. -/
def air_qstep_results (env : Env) (stepArg : ℕ) : ℕ → MarioState → List AirStepResult
  | 0, _ => []
  | Nat.succ n, m =>
    let r := air_qstep_iter env stepArg m
    if isAirStopResult r.2 then [r.2]
    else r.2 :: air_qstep_results env stepArg n r.1

/-- The last non-none element of a result sequence (`airNone` when all are
none) — the accumulator semantics of the loop of `perform_air_step`. -/
def lastNonNone (L : List AirStepResult) : AirStepResult :=
  L.foldl (fun acc r => if r = AirStepResult.airNone then acc else r) .airNone

/-- `perform_air_step` (mario_step.c): the before-physics-step hook may
short-circuit the whole step; otherwise clear the wall reference, run up to
4 quarter steps, update peak-height tracking, apply gravity (unless flying
or bubbled) and vertical wind, and commit the presentation state. -/
def perform_air_step (env : Env) (m0 : MarioState) (stepArg : ℕ) :
    MarioState × AirStepResult :=
  match env.beforePhysStepAir with
  | some r => (m0, r)
  | none =>
    let r := air_step_loop env stepArg 4 { m0 with wall := none } .airNone
    let m := r.1
    let m := if m.vel.y ≥ 0 then { m with peakHeight := m.pos.y } else m
    let m := { m with terrainSoundAddend := env.getTerrainSoundAddend m }
    let m := if m.action ≠ ACT_FLYING ∧ m.action ≠ ACT_BUBBLED then apply_gravity env m
             else m
    let m := apply_vertical_wind env m
    let m := { m with gfxPos := m.pos, gfxAngleYaw := m.faceAngleYaw }
    (m, r.2)

/-! ### The ground stepper (mario_step.c) -/

/-- The wall-inspection loop at the tail of `perform_ground_quarter_step`:
walls whose yaw deviation falls in the two side ranges are ignored, any
other wall reports hit-wall-continue. -/
def ground_wall_loop (env : Env) (m : MarioState) : List Surface → GroundStepResult
  | [] => .groundNone
  | w :: ws =>
    let wallDYaw := wrapS16 (env.atan2s w.normalZ w.normalX - m.faceAngleYaw)
    if (0x2AAA ≤ wallDYaw ∧ wallDYaw ≤ 0x5555) ∨ (wallDYaw ≤ -0x2AAA ∧ -0x5555 ≤ wallDYaw) then
      ground_wall_loop env m ws
    else .hitWallContinueQsteps

/-- `perform_ground_quarter_step` (mario_step.c): one horizontal ground
quarter step toward `nextPos0`, with out-of-bounds, shell-riding water
substitution, left-ground detection, ceiling clearance and wall checks. -/
def perform_ground_quarter_step (env : Env) (dir : Vec3) (m0 : MarioState)
    (nextPos0 : Vec3) : MarioState × GroundStepResult :=
  let r1 := env.resolveWalls dir nextPos0 30 24
  let r2 := env.resolveWalls dir r1.1 60 50
  let upperWalls := r2.2
  let nextPos := r2.1
  let ff := env.findFloor nextPos
  let fc := env.marioCeil nextPos ff.1
  let ceilHeight := fc.1
  let waterLevel := env.findWaterLevel nextPos.x nextPos.z
  let m := mario_update_wall m0 upperWalls
  match ff.2 with
  | none => (bouncy_bounds_bounce env m, .hitWallStopQsteps)
  | some floorSurf =>
    let sub : Prop := m.action &&& ACT_FLAG_RIDING_SHELL ≠ 0 ∧ ff.1 < waterLevel
                      ∧ env.allowForceWater = true
    let floorHeight := if sub then waterLevel else ff.1
    let floorS := if sub then gWaterSurfacePseudoFloor else floorSurf
    if nextPos.y > floorHeight + 100 then
      if nextPos.y + m.hitboxHeight ≥ ceilHeight then (m, .hitWallStopQsteps)
      else ({ m with pos := nextPos, floor := some floorS, floorHeight := floorHeight },
            .leftGround)
    else if floorHeight + m.hitboxHeight ≥ ceilHeight then (m, .hitWallStopQsteps)
    else
      let m := { m with pos := { x := nextPos.x, y := floorHeight, z := nextPos.z },
                        floor := some floorS, floorHeight := floorHeight }
      if upperWalls ≠ [] then
        (m, ground_wall_loop env m (legacy_wall_candidates env.fixCollisionBugs upperWalls))
      else (m, .groundNone)

/-- One iteration of the quarter-step loop of `perform_ground_step`:
horizontal quarter step scaled by the floor's vertical normal component
(or a hook-supplied de-facto speed). -/
def ground_step_iter (env : Env) (m : MarioState) : MarioState × GroundStepResult :=
  let step : Vec3 :=
    match m.floor with
    | some f =>
      let floorNormal := match env.overrideDefactoSpeed with
                         | some v => v
                         | none => f.normalY
      { x := floorNormal * (m.vel.x / 4), y := 0, z := floorNormal * (m.vel.z / 4) }
    | none => { x := 0, y := 0, z := 0 }
  let intendedPos : Vec3 := { x := m.pos.x + step.x, y := m.pos.y, z := m.pos.z + step.z }
  perform_ground_quarter_step env (vec3f_normalize env.sqrtq step) m intendedPos

/-- The quarter-step loop of `perform_ground_step`: the step result is
overwritten by every quarter step; left-ground and hit-wall-stop break. -/
def ground_step_loop (env : Env) :
    ℕ → MarioState → GroundStepResult → MarioState × GroundStepResult
  | 0, m, res => (m, res)
  | Nat.succ n, m, _ =>
    let r := ground_step_iter env m
    if r.2 = GroundStepResult.leftGround ∨ r.2 = GroundStepResult.hitWallStopQsteps then r
    else ground_step_loop env n r.1 r.2

/-- `perform_ground_step` (mario_step.c). -/
def perform_ground_step (env : Env) (m0 : MarioState) : MarioState × GroundStepResult :=
  match env.beforePhysStepGround with
  | some r => (m0, r)
  | none =>
    let r := ground_step_loop env 4 m0 .groundNone
    let m := { r.1 with terrainSoundAddend := env.getTerrainSoundAddend r.1,
                        gfxPos := r.1.pos, gfxAngleYaw := r.1.faceAngleYaw }
    (m, if r.2 = GroundStepResult.hitWallContinueQsteps then .hitWall else r.2)

/-! ### Airborne action helpers (mario_actions_airborne.c) -/

/-- Modelled from the spec: `play_sound_if_no_flag` (mario.c, not under
src/) latches the per-action sound flag (spec §3: flag bitset including
"sound-already-played-this-action"). -/
def play_sound_if_no_flag (m : MarioState) (flag : ℕ) : MarioState :=
  if m.flags &&& flag = 0 then { m with flags := m.flags ||| flag } else m

-- Particle flag bits (presentation sink; values immaterial to the claims).
def PARTICLE_VERTICAL_STAR : ℕ := 1 <<< 1
def PARTICLE_HORIZONTAL_STAR : ℕ := 1 <<< 2
def PARTICLE_MIST_CIRCLE : ℕ := 1 <<< 8

/-- `play_far_fall_sound` (mario_actions_airborne.c): latch the long-fall
warning once the fall exceeds the threshold, unless invulnerable, twirling
or flying. -/
def play_far_fall_sound (m : MarioState) : MarioState :=
  if m.action &&& ACT_FLAG_INVULNERABLE = 0 ∧ m.action ≠ ACT_TWIRLING
     ∧ m.action ≠ ACT_FLYING ∧ m.flags &&& MARIO_UNKNOWN_18 = 0
     ∧ m.peakHeight - m.pos.y > 1150 then
    { m with flags := m.flags ||| MARIO_UNKNOWN_18 }
  else m

/-- Whether a floor reference is present and not burning — the guard
`m->floor && m->floor->type != SURFACE_BURNING` of `check_fall_damage`. -/
def floor_not_burning (m : MarioState) : Bool :=
  match m.floor with
  | some f => f.type != SURFACE_BURNING
  | none => false

/-- `check_fall_damage` (mario_actions_airborne.c): hard falls beyond 3000
units transition to the supplied hard-fall action with 16/24 hurt points;
falls beyond the 1150 damage height on a non-slippery floor apply 8/12
hurt points and a squish timer of 30 with no transition. The hurt counter
is an unsigned byte. -/
def check_fall_damage (env : Env) (m : MarioState) (hardFallAction : ℕ) :
    MarioState × Bool :=
  let fallHeight := m.peakHeight - m.pos.y
  let damageHeight : ℚ := 1150
  if m.action ≠ ACT_TWIRLING ∧ floor_not_burning m = true then
    if m.vel.y < -55 then
      if fallHeight > 3000 then
        let m := { m with hurtCounter :=
          (m.hurtCounter + (if m.flags &&& MARIO_CAP_ON_HEAD ≠ 0 then 16 else 24)) % 256 }
        drop_and_set_mario_action m hardFallAction 4
      else if fallHeight > damageHeight ∧ env.floorIsSlippery m = false then
        let hc := (m.hurtCounter + (if m.flags &&& MARIO_CAP_ON_HEAD ≠ 0 then 8 else 12)) % 256
        ({ m with hurtCounter := hc, squishTimer := 30 }, false)
      else (m, false)
    else (m, false)
  else (m, false)

/-- `should_get_stuck_in_ground` (mario_actions_airborne.c). -/
def should_get_stuck_in_ground (m : MarioState) : Bool :=
  match m.floor with
  | none => false
  | some floor =>
    let terrainType := m.terrainType &&& TERRAIN_MASK
    decide ((terrainType = TERRAIN_SNOW ∨ terrainType = TERRAIN_SAND)
      ∧ floor.type ≠ SURFACE_BURNING
      ∧ (floor.type ≠ SURFACE_HARD
         ∧ ¬(SURFACE_HARD_SLIPPERY ≤ floor.type ∧ floor.type ≤ SURFACE_HARD_NOT_SLIPPERY))
      ∧ floor.flags &&& 1 = 0 ∧ m.peakHeight - m.pos.y > 1000
      ∧ floor.normalY ≥ 0.8660254)

/-- `check_horizontal_wind` (mario_actions_airborne.c): add the wind push
to the slide velocity, cap the magnitude at 48 but pin the scalar speed at
32 when either cap fires, then recompute the velocity, slide yaw and
forward velocity. -/
def check_horizontal_wind (env : Env) (m : MarioState) : MarioState × Bool :=
  if env.allowHazard HAZARD_TYPE_HORIZONTAL_WIND = false then (m, false)
  else
    match m.floor with
    | some floor =>
      if floor.type = SURFACE_HORIZONTAL_WIND then
        let pushAngle := wrapS16 (floor.force * 256)
        let sx := m.slideVelX + 1.2 * env.sins pushAngle
        let sz := m.slideVelZ + 1.2 * env.coss pushAngle
        let speed0 := env.sqrtq (sx * sx + sz * sz)
        let r : ℚ × ℚ × ℚ :=
          if speed0 > 48 then (sx * 48 / speed0, sz * 48 / speed0, 32)
          else if speed0 > 32 then (sx, sz, 32)
          else (sx, sz, speed0)
        let slideYaw := wrapS16 (env.atan2s r.2.1 r.1)
        ({ m with slideVelX := r.1, slideVelZ := r.2.1,
                  vel := { m.vel with x := r.1, z := r.2.1 },
                  slideYaw := slideYaw,
                  forwardVel := r.2.2 * env.coss (wrapS16 (m.faceAngleYaw - slideYaw)) },
         true)
      else (m, false)
    | none => (m, false)

/-- `act_ground_pound` (mario_actions_airborne.c): a two-phase handler.
Action state 0 (rise/windup): raise the position by a shrinking offset for
the first 10 ticks when headroom allows, hold the vertical velocity at -50
and the forward velocity at 0, advance the timer and switch to state 1 once
the windup animation (plus 4 ticks) has elapsed. Action state 1 (plunge):
run the air stepper and react to landing (stuck-in-ground, fall damage, or
the ground-pound landing action) or to a wall hit (backward knockback
unless the bonk bug-fix is on). The action timer is an unsigned 16-bit
counter. -/
def act_ground_pound (env : Env) (m0 : MarioState) : MarioState × Bool :=
  let m := play_sound_if_no_flag m0 MARIO_ACTION_SOUND_PLAYED
  if m.actionState = 0 then
    let m :=
      if m.actionTimer < 10 then
        let yOffset : ℚ := 20 - 2 * (m.actionTimer : ℚ)
        if m.pos.y + yOffset + 160 < m.ceilHeight then
          let m := { m with pos := { m.pos with y := m.pos.y + yOffset } }
          { m with peakHeight := m.pos.y, gfxPos := m.pos }
        else m
      else m
    let m := { m with vel := { m.vel with y := -50 } }
    let m := mario_set_forward_vel env m 0
    let m := { m with actionTimer := (m.actionTimer + 1) % 65536 }
    let m := if m.actionTimer ≥ m.curAnimLoopEnd + 4 then { m with actionState := 1 }
             else m
    (m, false)
  else
    let r := perform_air_step env m 0
    if r.2 = AirStepResult.landed then
      let m1 := r.1
      let m2 :=
        if should_get_stuck_in_ground m1 = true then
          (set_mario_action
            { m1 with particleFlags := m1.particleFlags ||| PARTICLE_MIST_CIRCLE }
            ACT_BUTT_STUCK_IN_GROUND 0).1
        else
          let fd := check_fall_damage env m1 ACT_HARD_BACKWARD_GROUND_KB
          if fd.2 = false then
            (set_mario_action
              { fd.1 with particleFlags :=
                  fd.1.particleFlags ||| PARTICLE_MIST_CIRCLE ||| PARTICLE_HORIZONTAL_STAR }
              ACT_GROUND_POUND_LAND 0).1
          else fd.1
      (m2, false)
    else if r.2 = AirStepResult.hitWall then
      if env.fixCollisionBugs = true ∧ env.fixCollisionBugsGroundPoundBonks = true then
        (r.1, false)
      else
        let m1 := mario_set_forward_vel env r.1 (-16)
        let m1 := if m1.vel.y > 0 then { m1 with vel := { m1.vel with y := 0 } } else m1
        let m1 := { m1 with particleFlags := m1.particleFlags ||| PARTICLE_VERTICAL_STAR }
        ((set_mario_action m1 ACT_BACKWARD_AIR_KB 0).1, false)
    else (r.1, false)

/-- `check_common_airborne_cancels` (mario_actions_airborne.c): water
plunge, squish and vertical-wind tick-level cancels; otherwise clear the
quicksand depth accumulator. -/
def check_common_airborne_cancels (env : Env) (m : MarioState) : MarioState × Bool :=
  if m.pos.y < (m.waterLevel : ℚ) - 100 ∧ env.allowForceWater = true then
    set_water_plunge_action m
  else if m.input &&& INPUT_SQUISHED ≠ 0 then
    drop_and_set_mario_action m ACT_SQUISHED 0
  else if floor_is_vertical_wind m = true
          ∧ m.action &&& ACT_FLAG_ALLOW_VERTICAL_WIND_ACTION ≠ 0
          ∧ env.allowHazard HAZARD_TYPE_VERTICAL_WIND = true then
    drop_and_set_mario_action m ACT_VERTICAL_WIND 0
  else
    ({ m with quicksandDepth := 0 }, false)

/-- The action identifiers enumerated by the dispatch switch of
`mario_execute_airborne_action`. -/
def airborneActionTable : List ℕ :=
  [ACT_JUMP, ACT_DOUBLE_JUMP, ACT_FREEFALL, ACT_HOLD_JUMP, ACT_HOLD_FREEFALL,
   ACT_SIDE_FLIP, ACT_WALL_KICK_AIR, ACT_TWIRLING, ACT_WATER_JUMP, ACT_HOLD_WATER_JUMP,
   ACT_STEEP_JUMP, ACT_BURNING_JUMP, ACT_BURNING_FALL, ACT_TRIPLE_JUMP, ACT_BACKFLIP,
   ACT_LONG_JUMP, ACT_RIDING_SHELL_JUMP, ACT_RIDING_SHELL_FALL, ACT_DIVE, ACT_AIR_THROW,
   ACT_BACKWARD_AIR_KB, ACT_FORWARD_AIR_KB, ACT_HARD_FORWARD_AIR_KB,
   ACT_HARD_BACKWARD_AIR_KB, ACT_SOFT_BONK, ACT_AIR_HIT_WALL, ACT_FORWARD_ROLLOUT,
   ACT_SHOT_FROM_CANNON, ACT_BUTT_SLIDE_AIR, ACT_HOLD_BUTT_SLIDE_AIR, ACT_LAVA_BOOST,
   ACT_GETTING_BLOWN, ACT_BACKWARD_ROLLOUT, ACT_CRAZY_BOX_BOUNCE, ACT_SPECIAL_TRIPLE_JUMP,
   ACT_GROUND_POUND, ACT_THROWN_FORWARD, ACT_THROWN_BACKWARD, ACT_FLYING_TRIPLE_JUMP,
   ACT_SLIDE_KICK, ACT_JUMP_KICK, ACT_FLYING, ACT_RIDING_HOOT, ACT_TOP_OF_POLE_JUMP,
   ACT_VERTICAL_WIND]

/-- `mario_execute_airborne_action` (mario_actions_airborne.c): tick-level
cancels, the far-fall warning, the per-tick hook, then the dispatch switch.
The individual action handlers are supplied through the environment (they
are enumerated in `airborneActionTable`; only the table-miss path is the
subject of a claim). The result triple is (new state, returned cancel
value, whether the unknown-action error was logged). -/
def mario_execute_airborne_action (env : Env) (m : MarioState) :
    MarioState × Bool × Bool :=
  let c := check_common_airborne_cancels env m
  if c.2 then (c.1, true, false)
  else
    let m1 := play_far_fall_sound c.1
    match env.everyFrameHook with
    | some cancel => (m1, cancel, false)
    | none =>
      if m1.action ∈ airborneActionTable then
        let r := env.handlers m1.action m1
        (r.1, r.2, false)
      else
        ((set_mario_action m1 ACT_FREEFALL 0).1, false, true)

/-! ### Null-actor wrappers

Every embedded entry point taking a `struct MarioState *` begins with a
`if (!m) { return 0; }` guard in the source; the pointer argument is
modelled as `Option MarioState` by these wrappers, `none` standing for
NULL. `AirStepResult.airNone` and `GroundStepResult.groundNone` are the
numeric value 0 returned by the guards. -/

/-- `perform_air_step` on a possibly-NULL actor. -/
def perform_air_step_nullable (env : Env) :
    Option MarioState → ℕ → Option MarioState × AirStepResult
  | none, _ => (none, .airNone)
  | some m, stepArg =>
    let r := perform_air_step env m stepArg
    (some r.1, r.2)

/-- `perform_ground_step` on a possibly-NULL actor. -/
def perform_ground_step_nullable (env : Env) :
    Option MarioState → Option MarioState × GroundStepResult
  | none => (none, .groundNone)
  | some m =>
    let r := perform_ground_step env m
    (some r.1, r.2)

/-- `apply_gravity` on a possibly-NULL actor (void in the source; the NULL
guard returns without effect). -/
def apply_gravity_nullable (env : Env) : Option MarioState → Option MarioState
  | none => none
  | some m => some (apply_gravity env m)

/-- `mario_execute_airborne_action` on a possibly-NULL actor. -/
def mario_execute_airborne_action_nullable (env : Env) :
    Option MarioState → Option MarioState × Bool × Bool
  | none => (none, false, false)
  | some m =>
    let r := mario_execute_airborne_action env m
    (some r.1, r.2)

/-! ### Concrete fixtures for witnesses -/

/-- A flat default floor surface. -/
def flatFloor : Surface :=
  { type := SURFACE_DEFAULT, flags := 0, force := 0,
    normalX := 0, normalY := 1, normalZ := 0 }

/-- A deep continuous quicksand floor. -/
def deepSandFloor : Surface :=
  { type := SURFACE_DEEP_QUICKSAND, flags := 0, force := 0,
    normalX := 0, normalY := 1, normalZ := 0 }

/-- A horizontal-wind floor with force value 0. -/
def windFloor : Surface :=
  { type := SURFACE_HORIZONTAL_WIND, flags := 0, force := 0,
    normalX := 0, normalY := 1, normalZ := 0 }

/-- A baseline actor state used by the concrete witnesses. -/
def baseMario : MarioState :=
  { pos := { x := 0, y := 5, z := 0 }, vel := { x := 0, y := -40, z := 0 },
    faceAnglePitch := 0, faceAngleYaw := 0, angleVelYaw := 0, slideYaw := 0,
    floorAngle := 0, action := ACT_FREEFALL, prevAction := 0, actionState := 0,
    actionTimer := 0, actionArg := 0, flags := 0, input := 0, forwardVel := 0,
    slideVelX := 0, slideVelZ := 0, floor := some flatFloor, floorHeight := 0,
    ceil := none, ceilHeight := 10000, wall := none,
    wallNormal := { x := 0, y := 1, z := 0 }, waterLevel := -11000,
    peakHeight := 5, quicksandDepth := 0, hurtCounter := 0, squishTimer := 0,
    health := 0x880, hitboxHeight := 160, heldObj := false, playerIndex := 0,
    unkC4 := 0, terrainType := TERRAIN_GRASS, terrainSoundAddend := 0,
    curAnimLoopEnd := 10, particleFlags := 0, wingFlutter := false,
    gfxPos := { x := 0, y := 5, z := 0 }, gfxAngleYaw := 0 }

/-- A baseline environment: no walls, a flat floor at height 0, a very high
ceiling, water far below, trivial trigonometry, no hooks overriding
anything, all hazards allowed, every server toggle at its default. -/
def baseEnv : Env :=
  { resolveWalls := fun _ p _ _ => (p, [])
    findFloor := fun _ => (0, some flatFloor)
    marioCeil := fun _ _ => (1000000, none)
    findWaterLevel := fun _ _ => -11000
    atan2s := fun _ _ => 0
    sins := fun _ => 0
    coss := fun _ => 1
    sqrtq := fun _ => 1
    beforePhysStepAir := none
    beforePhysStepGround := none
    overrideDefactoSpeed := none
    gravityHook := none
    everyFrameHook := none
    allowHazard := fun _ => true
    allowForceWater := true
    inMainMenu := false
    bouncyLevelBounds := 0
    fixCollisionBugs := false
    fixCollisionBugsFalseLedgeGrab := false
    fixCollisionBugsGroundPoundBonks := false
    globalTimer := 0
    floorIsSlippery := fun _ => false
    getTerrainSoundAddend := fun _ => 0
    handlers := fun _ m => (m, false) }

/-! ### Claims -/

/-- The two bully collision records of the C9 failing input: the two
bodies occupy the same horizontal position, so the squared distance
denominator is exactly 0. -/
def bullyA : BullyCollisionData :=
  { posX := some 100, posZ := some 200, velX := some 30, velZ := some 0,
    conversionRatio := some 1, radius := some 50 }

/-- Second bully of the C9 failing input (coincident with `bullyA`). -/
def bullyB : BullyCollisionData :=
  { posX := some 100, posZ := some 200, velX := some 0, velZ := some 0,
    conversionRatio := some 1, radius := some 50 }

/-- C9: the claim states the division by the squared horizontal distance in
`transfer_bully_speed` is guarded so that no NaN is produced for any pair of
inputs. The code has no such guard (its own comment marks the `Bully NaN
crash`): at coincident positions the denominator is exactly 0, the 0/0
division is non-finite, and the non-finite value propagates into the
resulting velocities of both bodies. -/
theorem transfer_bully_speed_coincident_nan :
    fqAdd (fqMul (fqSub bullyB.posX bullyA.posX) (fqSub bullyB.posX bullyA.posX))
          (fqMul (fqSub bullyB.posZ bullyA.posZ) (fqSub bullyB.posZ bullyA.posZ))
      = FQ.fin 0
    ∧ (transfer_bully_speed bullyA bullyB).2.velX = none
    ∧ (transfer_bully_speed bullyA bullyB).2.velZ = none
    ∧ (transfer_bully_speed bullyA bullyB).1.velX = none := by
  norm_num [bullyA, bullyB, transfer_bully_speed, fqAdd, fqMul, fqSub, fqNeg, fqDiv, FQ.fin]

/-- C10: the four public entry points taking an actor-state pointer all
begin with a NULL guard: on a NULL actor they return 0/FALSE (the
`airNone`/`groundNone` tags are the numeric value 0) without touching any
state. -/
theorem null_actor_entry_points_total (env : Env) (stepArg : ℕ) :
    perform_air_step_nullable env none stepArg = (none, AirStepResult.airNone)
    ∧ perform_ground_step_nullable env none = (none, GroundStepResult.groundNone)
    ∧ apply_gravity_nullable env none = none
    ∧ mario_execute_airborne_action_nullable env none = (none, false, false) :=
  ⟨rfl, rfl, rfl, rfl⟩

/-- C5: on a deep continuous quicksand floor, with sinking not suppressed
(not riding a shell, hazard hook allows, not in the main menu), the
quicksand-death transition fires exactly when the accumulated depth after
adding this tick's sinking speed reaches the actor's hitbox height, and
never while it is below it. (The depth is clamped up to 1.1 before the
addition, as in the source.) -/
theorem mario_update_quicksand_deep_death_iff
    (env : Env) (m : MarioState) (sinkingSpeed : ℚ) (f : Surface)
    (hfloor : m.floor = some f)
    (htype : f.type = SURFACE_DEEP_QUICKSAND ∨ f.type = SURFACE_DEEP_MOVING_QUICKSAND)
    (hshell : m.action &&& ACT_FLAG_RIDING_SHELL = 0)
    (hallow : env.allowHazard HAZARD_TYPE_QUICKSAND = true)
    (hmenu : env.inMainMenu = false) :
    (mario_update_quicksand env m sinkingSpeed).1.quicksandDepth
        = (if m.quicksandDepth < 1.1 then 1.1 else m.quicksandDepth) + sinkingSpeed
    ∧ ((if m.quicksandDepth < 1.1 then 1.1 else m.quicksandDepth) + sinkingSpeed
          ≥ m.hitboxHeight →
        (mario_update_quicksand env m sinkingSpeed).1.action = ACT_QUICKSAND_DEATH
        ∧ (mario_update_quicksand env m sinkingSpeed).2 = true)
    ∧ ((if m.quicksandDepth < 1.1 then 1.1 else m.quicksandDepth) + sinkingSpeed
          < m.hitboxHeight →
        (mario_update_quicksand env m sinkingSpeed).1.action = m.action
        ∧ (mario_update_quicksand env m sinkingSpeed).2 = false) := by
  have hg : ¬ (m.action &&& ACT_FLAG_RIDING_SHELL ≠ 0
               ∨ env.allowHazard HAZARD_TYPE_QUICKSAND = false ∨ env.inMainMenu = true) := by
    simp [hshell, hallow, hmenu]
  have hkey : mario_update_quicksand env m sinkingSpeed
      = (if (if m.quicksandDepth < 1.1 then (1.1 : ℚ) else m.quicksandDepth) + sinkingSpeed
            ≥ m.hitboxHeight
         then drop_and_set_mario_action
                { m with quicksandDepth :=
                    (if m.quicksandDepth < 1.1 then (1.1 : ℚ) else m.quicksandDepth)
                      + sinkingSpeed }
                ACT_QUICKSAND_DEATH 0
         else ({ m with quicksandDepth :=
                   (if m.quicksandDepth < 1.1 then (1.1 : ℚ) else m.quicksandDepth)
                     + sinkingSpeed }, false)) := by
    rcases htype with h | h <;> by_cases hd : m.quicksandDepth < 1.1
    · simp only [mario_update_quicksand, hfloor, if_neg hg, h, if_pos hd]
      norm_num [SURFACE_SHALLOW_QUICKSAND, SURFACE_SHALLOW_MOVING_QUICKSAND,
        SURFACE_QUICKSAND, SURFACE_MOVING_QUICKSAND, SURFACE_DEEP_QUICKSAND,
        SURFACE_DEEP_MOVING_QUICKSAND, SURFACE_INSTANT_QUICKSAND,
        SURFACE_INSTANT_MOVING_QUICKSAND]
    · simp only [mario_update_quicksand, hfloor, if_neg hg, h, if_neg hd]
      norm_num [SURFACE_SHALLOW_QUICKSAND, SURFACE_SHALLOW_MOVING_QUICKSAND,
        SURFACE_QUICKSAND, SURFACE_MOVING_QUICKSAND, SURFACE_DEEP_QUICKSAND,
        SURFACE_DEEP_MOVING_QUICKSAND, SURFACE_INSTANT_QUICKSAND,
        SURFACE_INSTANT_MOVING_QUICKSAND]
    · simp only [mario_update_quicksand, hfloor, if_neg hg, h, if_pos hd]
      norm_num [SURFACE_SHALLOW_QUICKSAND, SURFACE_SHALLOW_MOVING_QUICKSAND,
        SURFACE_QUICKSAND, SURFACE_MOVING_QUICKSAND, SURFACE_DEEP_QUICKSAND,
        SURFACE_DEEP_MOVING_QUICKSAND, SURFACE_INSTANT_QUICKSAND,
        SURFACE_INSTANT_MOVING_QUICKSAND]
    · simp only [mario_update_quicksand, hfloor, if_neg hg, h, if_neg hd]
      norm_num [SURFACE_SHALLOW_QUICKSAND, SURFACE_SHALLOW_MOVING_QUICKSAND,
        SURFACE_QUICKSAND, SURFACE_MOVING_QUICKSAND, SURFACE_DEEP_QUICKSAND,
        SURFACE_DEEP_MOVING_QUICKSAND, SURFACE_INSTANT_QUICKSAND,
        SURFACE_INSTANT_MOVING_QUICKSAND]
  rw [hkey]
  by_cases hge : (if m.quicksandDepth < 1.1 then (1.1 : ℚ) else m.quicksandDepth)
                   + sinkingSpeed ≥ m.hitboxHeight
  · rw [if_pos hge]
    exact ⟨rfl, fun _ => ⟨rfl, rfl⟩, fun hlt => absurd hge (not_le.mpr hlt)⟩
  · rw [if_neg hge]
    exact ⟨rfl, fun hge2 => absurd hge2 hge, fun _ => ⟨rfl, rfl⟩⟩

/-- Actor sunk to depth 100 on a deep continuous quicksand floor. -/
def qsMario : MarioState :=
  { baseMario with floor := some deepSandFloor, quicksandDepth := 100 }

/-- Witness for C5: at depth 100 with sinking speed 60 and hitbox height
160, the accumulated depth reaches exactly the hitbox height and the
quicksand-death transition fires. -/
theorem mario_update_quicksand_deep_death_iff_witness :
    (mario_update_quicksand baseEnv qsMario 60).1.quicksandDepth = 160
    ∧ (mario_update_quicksand baseEnv qsMario 60).1.action = ACT_QUICKSAND_DEATH
    ∧ (mario_update_quicksand baseEnv qsMario 60).2 = true := by
  have h := mario_update_quicksand_deep_death_iff baseEnv qsMario 60 deepSandFloor
    rfl (Or.inl rfl) (by decide) rfl rfl
  have hge : (if qsMario.quicksandDepth < 1.1 then (1.1 : ℚ) else qsMario.quicksandDepth) + 60
      ≥ qsMario.hitboxHeight := by norm_num [qsMario, baseMario]
  refine ⟨?_, (h.2.1 hge).1, (h.2.1 hge).2⟩
  rw [h.1]
  norm_num [qsMario, baseMario]

/-- C4: with a non-burning floor referenced, not twirling and vertical
velocity below -55: a fall of exactly 3001 units transitions to the
supplied hard-fall action and raises the hurt counter by 16 (cap on head)
or 24; a fall of exactly 1150.01 units on a non-slippery floor only raises
the hurt counter by 8 (cap on head) or 12 and sets the squish timer to 30,
with no action transition. (The hurt counter is an unsigned byte.) -/
theorem check_fall_damage_heights (env : Env) (m : MarioState) (hardFallAction : ℕ)
    (hact : m.action ≠ ACT_TWIRLING)
    (hfloor : floor_not_burning m = true)
    (hvel : m.vel.y < -55) :
    (m.peakHeight - m.pos.y = 3001 →
       (check_fall_damage env m hardFallAction).1.action = hardFallAction
       ∧ (check_fall_damage env m hardFallAction).2 = true
       ∧ (check_fall_damage env m hardFallAction).1.hurtCounter
           = (m.hurtCounter + (if m.flags &&& MARIO_CAP_ON_HEAD ≠ 0 then 16 else 24)) % 256)
    ∧ (m.peakHeight - m.pos.y = 1150.01 → env.floorIsSlippery m = false →
       (check_fall_damage env m hardFallAction).1.action = m.action
       ∧ (check_fall_damage env m hardFallAction).2 = false
       ∧ (check_fall_damage env m hardFallAction).1.squishTimer = 30
       ∧ (check_fall_damage env m hardFallAction).1.hurtCounter
           = (m.hurtCounter + (if m.flags &&& MARIO_CAP_ON_HEAD ≠ 0 then 8 else 12)) % 256) := by
  have hcond : m.action ≠ ACT_TWIRLING ∧ floor_not_burning m = true := ⟨hact, hfloor⟩
  constructor
  · intro h3001
    simp only [check_fall_damage, if_pos hcond, if_pos hvel, h3001]
    rw [if_pos (by norm_num : (3001 : ℚ) > 3000)]
    exact ⟨rfl, rfl, rfl⟩
  · intro h1150 hslip
    simp only [check_fall_damage, if_pos hcond, if_pos hvel, h1150]
    rw [if_neg (by norm_num : ¬ (1150.01 : ℚ) > 3000),
        if_pos ⟨by norm_num, hslip⟩]
    exact ⟨rfl, rfl, rfl, rfl⟩

/-- Hard-fall scenario actor: fall height exactly 3001, no cap on head. -/
def fallMarioA : MarioState :=
  { baseMario with pos := { x := 0, y := 0, z := 0 }, peakHeight := 3001,
                   vel := { x := 0, y := -60, z := 0 } }

/-- Minor-fall scenario actor: fall height exactly 1150.01. -/
def fallMarioB : MarioState :=
  { baseMario with pos := { x := 0, y := 0, z := 0 }, peakHeight := 1150.01,
                   vel := { x := 0, y := -60, z := 0 } }

/-- Witness for C4: both scenario shapes evaluated at concrete actors
(no cap on head, hurt counter starting at 0). -/
theorem check_fall_damage_heights_witness :
    (check_fall_damage baseEnv fallMarioA 7).1.action = 7
    ∧ (check_fall_damage baseEnv fallMarioA 7).2 = true
    ∧ (check_fall_damage baseEnv fallMarioA 7).1.hurtCounter = 24
    ∧ (check_fall_damage baseEnv fallMarioB 7).1.action = ACT_FREEFALL
    ∧ (check_fall_damage baseEnv fallMarioB 7).2 = false
    ∧ (check_fall_damage baseEnv fallMarioB 7).1.squishTimer = 30
    ∧ (check_fall_damage baseEnv fallMarioB 7).1.hurtCounter = 12 := by
  have hA := (check_fall_damage_heights baseEnv fallMarioA 7 (by decide) rfl
      (by norm_num [fallMarioA, baseMario])).1 (by norm_num [fallMarioA, baseMario])
  have hB := (check_fall_damage_heights baseEnv fallMarioB 7 (by decide) rfl
      (by norm_num [fallMarioB, baseMario])).2 (by norm_num [fallMarioB, baseMario]) rfl
  exact ⟨hA.1, hA.2.1, hA.2.2.trans (by decide), hB.1, hB.2.1, hB.2.2.1,
         hB.2.2.2.trans (by decide)⟩

/-- C3: a ledge grab always fails (state unchanged) when the vertical
velocity is strictly positive; at the boundary `vel.y = 0` it succeeds
whenever the remaining conditions hold: the wall displacement opposes the
velocity, a ledge floor exists at the 60-unit offset probe, the optional
steepness bug-fix check passes, and the ledge lip is more than 100 units
above the target height. -/
theorem check_ledge_grab_vel_y (env : Env) (m : MarioState) (wall : Surface)
    (intendedPos nextPos : Vec3) :
    (m.vel.y > 0 → check_ledge_grab env m wall intendedPos nextPos = (m, false))
    ∧ (∀ lh : ℚ, ∀ lf : Surface,
        m.vel.y = 0 →
        (nextPos.x - intendedPos.x) * m.vel.x + (nextPos.z - intendedPos.z) * m.vel.z ≤ 0 →
        env.findFloor { x := nextPos.x - wall.normalX * 60,
                        y := nextPos.y + m.hitboxHeight,
                        z := nextPos.z - wall.normalZ * 60 } = (lh, some lf) →
        (env.fixCollisionBugs = true → env.fixCollisionBugsFalseLedgeGrab = true →
          lf.normalY ≥ 0.90630779) →
        lh - nextPos.y > 100 →
        (check_ledge_grab env m wall intendedPos nextPos).2 = true) := by
  constructor
  · intro hup
    simp only [check_ledge_grab, if_pos hup]
  · intro lh lf hv0 hdot hff hfix hlip
    have hnotup : ¬ m.vel.y > 0 := by rw [hv0]; norm_num
    have hnotdot : ¬ ((nextPos.x - intendedPos.x) * m.vel.x
                      + (nextPos.z - intendedPos.z) * m.vel.z > 0) := not_lt.mpr hdot
    have hnotfix : ¬ (env.fixCollisionBugs = true ∧ env.fixCollisionBugsFalseLedgeGrab = true
                      ∧ lf.normalY < 0.90630779) := by
      rintro ⟨h1, h2, h3⟩
      exact absurd (hfix h1 h2) (not_le.mpr h3)
    simp only [check_ledge_grab, if_neg hnotup, if_neg hnotdot, hff]
    rw [if_neg hnotfix, if_neg (not_le.mpr hlip)]

/-- A vertical wall facing the negative-x direction. -/
def ledgeWall : Surface :=
  { type := SURFACE_DEFAULT, flags := 0, force := 0, normalX := -1, normalY := 0, normalZ := 0 }

/-- Environment whose floor query finds a ledge floor at height 110. -/
def ledgeEnv : Env := { baseEnv with findFloor := fun _ => (110, some flatFloor) }

/-- Actor moving upward (ledge grab must fail). -/
def ledgeMarioUp : MarioState := { baseMario with vel := { x := 10, y := 1, z := 0 } }

/-- Actor at the `vel.y = 0` boundary (ledge grab must succeed). -/
def ledgeMario : MarioState := { baseMario with vel := { x := 10, y := 0, z := 0 } }

/-- Witness for C3: the upward-moving actor is rejected unchanged; at the
boundary with all other conditions met the grab succeeds. -/
theorem check_ledge_grab_vel_y_witness :
    check_ledge_grab ledgeEnv ledgeMarioUp ledgeWall { x := 10, y := 0, z := 0 }
        { x := 5, y := 0, z := 0 } = (ledgeMarioUp, false)
    ∧ (check_ledge_grab ledgeEnv ledgeMario ledgeWall { x := 10, y := 0, z := 0 }
        { x := 5, y := 0, z := 0 }).2 = true := by
  have h := check_ledge_grab_vel_y ledgeEnv ledgeMarioUp ledgeWall
    { x := 10, y := 0, z := 0 } { x := 5, y := 0, z := 0 }
  have h2 := check_ledge_grab_vel_y ledgeEnv ledgeMario ledgeWall
    { x := 10, y := 0, z := 0 } { x := 5, y := 0, z := 0 }
  refine ⟨h.1 (by norm_num [ledgeMarioUp, baseMario]), ?_⟩
  refine h2.2 110 flatFloor (by norm_num [ledgeMario, baseMario])
    (by norm_num [ledgeMario, baseMario]) rfl ?_ (by norm_num)
  intro hfix _
  exact absurd hfix (by norm_num [ledgeEnv, baseEnv])

/-- C6: on a horizontal-wind floor with the hazard allowed, after adding
the wind push to the slide velocity: when the resulting magnitude `s`
exceeds 48 the slide velocity is rescaled so its magnitude is exactly 48,
while the scalar speed used to recompute the forward velocity is pinned at
32; when the magnitude lies in (32, 48] the slide velocity is kept but the
scalar speed is likewise capped at 32. (`s` is the float square root of
the squared magnitude, supplied by the environment and characterized by
`hsq`.) -/
theorem check_horizontal_wind_caps (env : Env) (m : MarioState) (f : Surface)
    (sx sz s : ℚ)
    (hallow : env.allowHazard HAZARD_TYPE_HORIZONTAL_WIND = true)
    (hfloor : m.floor = some f)
    (htype : f.type = SURFACE_HORIZONTAL_WIND)
    (hsx : sx = m.slideVelX + 1.2 * env.sins (wrapS16 (f.force * 256)))
    (hsz : sz = m.slideVelZ + 1.2 * env.coss (wrapS16 (f.force * 256)))
    (hs : env.sqrtq (sx * sx + sz * sz) = s)
    (hsq : s * s = sx * sx + sz * sz) :
    (s > 48 →
      (check_horizontal_wind env m).1.slideVelX = sx * 48 / s
      ∧ (check_horizontal_wind env m).1.slideVelZ = sz * 48 / s
      ∧ (check_horizontal_wind env m).1.slideVelX * (check_horizontal_wind env m).1.slideVelX
          + (check_horizontal_wind env m).1.slideVelZ * (check_horizontal_wind env m).1.slideVelZ
          = 48 * 48
      ∧ (check_horizontal_wind env m).1.forwardVel
          = 32 * env.coss (wrapS16 (m.faceAngleYaw
              - (check_horizontal_wind env m).1.slideYaw)))
    ∧ (32 < s → s ≤ 48 →
      (check_horizontal_wind env m).1.slideVelX = sx
      ∧ (check_horizontal_wind env m).1.slideVelZ = sz
      ∧ (check_horizontal_wind env m).1.forwardVel
          = 32 * env.coss (wrapS16 (m.faceAngleYaw
              - (check_horizontal_wind env m).1.slideYaw))) := by
  subst hsx
  subst hsz
  have hna : ¬ env.allowHazard HAZARD_TYPE_HORIZONTAL_WIND = false := by simp [hallow]
  constructor
  · intro h48
    have hs0 : s ≠ 0 := ne_of_gt (by linarith)
    simp only [check_horizontal_wind, if_neg hna, hfloor, if_pos htype, hs, if_pos h48]
    refine ⟨trivial, trivial, ?_, trivial⟩
    field_simp
    linear_combination (-2304 : ℚ) * hsq
  · intro h32 h48
    simp only [check_horizontal_wind, if_neg hna, hfloor, if_pos htype, hs,
      if_neg (not_lt.mpr h48), if_pos h32]
    exact ⟨trivial, trivial, trivial⟩

/-- Actor on the wind floor whose slide velocity will exceed the cap. -/
def windMario : MarioState :=
  { baseMario with floor := some windFloor, slideVelX := 0, slideVelZ := 58.8 }

/-- Environment for the wind witness: the square root of the raw squared
magnitude (3600) is 60. -/
def windEnv : Env := { baseEnv with sqrtq := fun _ => 60 }

/-- Witness for C6: starting slide velocity (0, 58.8) plus a push of 1.2
along angle 0 gives magnitude 60 > 48; the slide velocity is rescaled to
(0, 48) — magnitude exactly 48 — while the forward velocity is recomputed
from the pinned scalar speed 32. -/
theorem check_horizontal_wind_caps_witness :
    (check_horizontal_wind windEnv windMario).1.slideVelX = 0
    ∧ (check_horizontal_wind windEnv windMario).1.slideVelZ = 48
    ∧ (check_horizontal_wind windEnv windMario).1.slideVelX
        * (check_horizontal_wind windEnv windMario).1.slideVelX
        + (check_horizontal_wind windEnv windMario).1.slideVelZ
        * (check_horizontal_wind windEnv windMario).1.slideVelZ
        = 48 * 48
    ∧ (check_horizontal_wind windEnv windMario).1.forwardVel = 32 := by
  have h := (check_horizontal_wind_caps windEnv windMario windFloor 0 60 60
    rfl rfl rfl
    (by norm_num [windMario, baseMario, windEnv, baseEnv, windFloor, wrapS16])
    (by norm_num [windMario, baseMario, windEnv, baseEnv, windFloor, wrapS16])
    rfl (by norm_num)).1 (by norm_num)
  refine ⟨h.1.trans (by norm_num), h.2.1.trans (by norm_num), h.2.2.1, ?_⟩
  exact h.2.2.2.trans (by norm_num [windEnv, baseEnv])

/-- C1: in an air quarter step where the floor query at the (wall-displaced)
target finds a floor and the target height is at or below the effective
floor height (after the possible shell-riding water substitution giving
`fh`/`fS`), the result is landed, the final Y position is exactly the
effective floor height, and the X/Z position and the floor reference are
updated to the target exactly when the ceiling-to-floor clearance exceeds
the hitbox height — otherwise X/Z, the floor reference and the stored floor
height remain unchanged. -/
theorem perform_air_quarter_step_landed_spec
    (env : Env) (dir : Vec3) (m : MarioState) (intendedPos : Vec3) (stepArg : ℕ)
    (p1 : Vec3) (uw : List Surface) (npos : Vec3) (lw : List Surface)
    (fh0 : ℚ) (f : Surface) (ch : ℚ) (co : Option Surface) (wl fh : ℚ) (fS : Surface)
    (h1 : env.resolveWalls dir intendedPos 150 50 = (p1, uw))
    (h2 : env.resolveWalls dir p1 30 50 = (npos, lw))
    (h3 : env.findFloor npos = (fh0, some f))
    (h4 : env.marioCeil npos fh0 = (ch, co))
    (h5 : env.findWaterLevel npos.x npos.z = wl)
    (hsub : (fh, fS) = if m.action &&& ACT_FLAG_RIDING_SHELL ≠ 0 ∧ fh0 < wl
                          ∧ env.allowForceWater = true
                       then (wl, gWaterSurfacePseudoFloor) else (fh0, f))
    (hland : npos.y ≤ fh) :
    (perform_air_quarter_step env dir m intendedPos stepArg).2 = AirStepResult.landed
    ∧ (perform_air_quarter_step env dir m intendedPos stepArg).1.pos.y = fh
    ∧ (ch - fh > m.hitboxHeight →
        (perform_air_quarter_step env dir m intendedPos stepArg).1.pos.x = npos.x
        ∧ (perform_air_quarter_step env dir m intendedPos stepArg).1.pos.z = npos.z
        ∧ (perform_air_quarter_step env dir m intendedPos stepArg).1.floor = some fS
        ∧ (perform_air_quarter_step env dir m intendedPos stepArg).1.floorHeight = fh)
    ∧ (¬ (ch - fh > m.hitboxHeight) →
        (perform_air_quarter_step env dir m intendedPos stepArg).1.pos.x = m.pos.x
        ∧ (perform_air_quarter_step env dir m intendedPos stepArg).1.pos.z = m.pos.z
        ∧ (perform_air_quarter_step env dir m intendedPos stepArg).1.floor = m.floor
        ∧ (perform_air_quarter_step env dir m intendedPos stepArg).1.floorHeight
            = m.floorHeight) := by
  have hkey : perform_air_quarter_step env dir m intendedPos stepArg
      = (if ch - fh > m.hitboxHeight
         then ({ m with wall := none, pos := { x := npos.x, y := fh, z := npos.z },
                        floor := some fS, floorHeight := fh }, AirStepResult.landed)
         else ({ m with wall := none, pos := { m.pos with y := fh } },
               AirStepResult.landed)) := by
    by_cases hcond : m.action &&& ACT_FLAG_RIDING_SHELL ≠ 0 ∧ fh0 < wl
                     ∧ env.allowForceWater = true
    · rw [if_pos hcond] at hsub
      simp only [Prod.mk.injEq] at hsub
      obtain ⟨hfh, hfS⟩ := hsub
      subst hfh
      subst hfS
      simp only [perform_air_quarter_step, h1, h2, h3, h4, h5, if_pos hcond, if_pos hland]
      split_ifs <;> rfl
    · rw [if_neg hcond] at hsub
      simp only [Prod.mk.injEq] at hsub
      obtain ⟨hfh, hfS⟩ := hsub
      subst hfh
      subst hfS
      simp only [perform_air_quarter_step, h1, h2, h3, h4, h5, if_neg hcond, if_pos hland]
      split_ifs <;> rfl
  rw [hkey]
  by_cases hcl : ch - fh > m.hitboxHeight
  · rw [if_pos hcl]
    exact ⟨rfl, rfl, fun _ => ⟨rfl, rfl, rfl, rfl⟩, fun h => absurd hcl h⟩
  · rw [if_neg hcl]
    exact ⟨rfl, rfl, fun h => absurd h hcl, fun _ => ⟨rfl, rfl, rfl, rfl⟩⟩

/-- Witness for C1: the baseline actor lands on the flat floor at height 0
from a quarter-step target below it; with a very high ceiling the clearance
exceeds the hitbox height, so X/Z and the floor reference are committed. -/
theorem perform_air_quarter_step_landed_spec_witness :
    (perform_air_quarter_step baseEnv { x := 0, y := -1, z := 0 } baseMario
        { x := 3, y := -5, z := 4 } 0).2 = AirStepResult.landed
    ∧ (perform_air_quarter_step baseEnv { x := 0, y := -1, z := 0 } baseMario
        { x := 3, y := -5, z := 4 } 0).1.pos.y = 0
    ∧ (perform_air_quarter_step baseEnv { x := 0, y := -1, z := 0 } baseMario
        { x := 3, y := -5, z := 4 } 0).1.pos.x = 3
    ∧ (perform_air_quarter_step baseEnv { x := 0, y := -1, z := 0 } baseMario
        { x := 3, y := -5, z := 4 } 0).1.pos.z = 4
    ∧ (perform_air_quarter_step baseEnv { x := 0, y := -1, z := 0 } baseMario
        { x := 3, y := -5, z := 4 } 0).1.floor = some flatFloor
    ∧ (perform_air_quarter_step baseEnv { x := 0, y := -1, z := 0 } baseMario
        { x := 3, y := -5, z := 4 } 0).1.floorHeight = 0 := by
  have h := perform_air_quarter_step_landed_spec baseEnv { x := 0, y := -1, z := 0 }
    baseMario { x := 3, y := -5, z := 4 } 0
    { x := 3, y := -5, z := 4 } [] { x := 3, y := -5, z := 4 } []
    0 flatFloor 1000000 none (-11000) 0 flatFloor
    rfl rfl rfl rfl rfl
    (by rw [if_neg]; norm_num [baseMario])
    (by norm_num)
  have hcl : (1000000 : ℚ) - 0 > baseMario.hitboxHeight := by norm_num [baseMario]
  obtain ⟨ha, hb, hc, -⟩ := h
  exact ⟨ha, hb, (hc hcl).1, (hc hcl).2.1, (hc hcl).2.2.1, (hc hcl).2.2.2⟩

/-- When no tick-level cancel fires, `check_common_airborne_cancels` only
clears the quicksand depth accumulator. -/
theorem check_common_airborne_cancels_false (env : Env) (m : MarioState)
    (h : (check_common_airborne_cancels env m).2 = false) :
    (check_common_airborne_cancels env m).1 = { m with quicksandDepth := 0 } := by
  unfold check_common_airborne_cancels at h ⊢
  split_ifs at h ⊢ <;>
    simp_all [set_water_plunge_action, drop_and_set_mario_action, set_mario_action]

/-- `play_far_fall_sound` never changes the action identifier. -/
theorem play_far_fall_sound_action (m : MarioState) :
    (play_far_fall_sound m).action = m.action := by
  unfold play_far_fall_sound
  split_ifs <;> rfl

/-- On a dispatch-table miss (cancels not firing, hook absent), the
dispatcher's result is the forced free-fall transition with return value
false and the error logged. -/
theorem mario_execute_airborne_action_unknown_eq (env : Env) (m : MarioState)
    (hcancel : (check_common_airborne_cancels env m).2 = false)
    (hhook : env.everyFrameHook = none)
    (hmiss : m.action ∉ airborneActionTable) :
    mario_execute_airborne_action env m
      = ((set_mario_action (play_far_fall_sound { m with quicksandDepth := 0 })
            ACT_FREEFALL 0).1, false, true) := by
  have hstate := check_common_airborne_cancels_false env m hcancel
  have hmiss3 : (play_far_fall_sound { m with quicksandDepth := 0 }).action
      ∉ airborneActionTable := by
    rw [play_far_fall_sound_action]
    exact hmiss
  have hnc : ¬ ((check_common_airborne_cancels env m).2 = true) := by simp [hcancel]
  simp only [mario_execute_airborne_action, if_neg hnc, hhook, hstate, if_neg hmiss3]

/-- C8: when the tick-level cancels do not fire, the per-tick hook does not
handle the tick, and the current action identifier has no entry in the
dispatch table, the dispatcher logs the unknown-action error, forces the
free-fall action, returns false, and invokes no handler (the result is
independent of the supplied handler table). -/
theorem mario_execute_airborne_action_unknown (env : Env) (m : MarioState)
    (hcancel : (check_common_airborne_cancels env m).2 = false)
    (hhook : env.everyFrameHook = none)
    (hmiss : m.action ∉ airborneActionTable) :
    (mario_execute_airborne_action env m).2.1 = false
    ∧ (mario_execute_airborne_action env m).2.2 = true
    ∧ (mario_execute_airborne_action env m).1.action = ACT_FREEFALL
    ∧ ∀ g : ℕ → MarioState → MarioState × Bool,
        mario_execute_airborne_action { env with handlers := g } m
          = mario_execute_airborne_action env m := by
  have he := mario_execute_airborne_action_unknown_eq env m hcancel hhook hmiss
  refine ⟨by rw [he], by rw [he], by rw [he]; rfl, ?_⟩
  intro g
  have he2 := mario_execute_airborne_action_unknown_eq { env with handlers := g } m
    hcancel hhook hmiss
  rw [he2, he]

/-- An actor whose action identifier (0) has no dispatch-table entry. -/
def unknownActMario : MarioState := { baseMario with action := 0 }

/-- Witness for C8: the actor with the unregistered action identifier 0 is
reset to free fall, the dispatcher returns false and logs the error. -/
theorem mario_execute_airborne_action_unknown_witness :
    (mario_execute_airborne_action baseEnv unknownActMario).2.1 = false
    ∧ (mario_execute_airborne_action baseEnv unknownActMario).2.2 = true
    ∧ (mario_execute_airborne_action baseEnv unknownActMario).1.action = ACT_FREEFALL := by
  have hc : (check_common_airborne_cancels baseEnv unknownActMario).2 = false := by
    norm_num [check_common_airborne_cancels, unknownActMario, baseMario, baseEnv,
      floor_is_vertical_wind, flatFloor]
  have h := mario_execute_airborne_action_unknown baseEnv unknownActMario hc rfl (by decide)
  exact ⟨h.1, h.2.1, h.2.2.1⟩

/-- Unfolding lemma: the quarter-step loop on zero remaining iterations. -/
theorem air_step_loop_zero (env : Env) (stepArg : ℕ) (m : MarioState) (res : AirStepResult) :
    air_step_loop env stepArg 0 m res = (m, res) := rfl

/-- A quarter step returning no event advances the loop without stopping
and leaves the remembered result unchanged. -/
theorem air_step_loop_none_step (env : Env) (stepArg : ℕ) (n : ℕ)
    (m m' : MarioState) (res : AirStepResult)
    (h : air_qstep_iter env stepArg m = (m', AirStepResult.airNone)) :
    air_step_loop env stepArg (Nat.succ n) m res = air_step_loop env stepArg n m' res := by
  simp only [air_step_loop, h, isAirStopResult]
  norm_num
  intro hc
  exact absurd hc (by decide)

/-- The plunge-phase ground-pound actor: action state 1, vertical velocity
-50, far above the flat floor, action-sound flag already latched. -/
def gpMario : MarioState :=
  { baseMario with
    action := ACT_GROUND_POUND, actionState := 1, flags := MARIO_ACTION_SOUND_PLAYED,
    pos := { x := 0, y := 10000, z := 0 }, vel := { x := 0, y := -50, z := 0 },
    peakHeight := 10000 }

/-- The plunge-phase actor at height `y` (all other fields as `gpMario`). -/
def gpStep (y : ℚ) : MarioState := { gpMario with pos := { x := 0, y := y, z := 0 } }

/-- One free-fall quarter step of the plunging ground pound: the actor
descends 12.5 units with no event. -/
theorem gp_qstep (y : ℚ) (hy1 : 100 ≤ y) (hy2 : y ≤ 10000) :
    air_qstep_iter baseEnv 0 (gpStep y) = (gpStep (y - 12.5), AirStepResult.airNone) := by
  simp only [air_qstep_iter, perform_air_quarter_step, vec3f_normalize, gpStep, gpMario,
    baseMario, baseEnv, flatFloor]
  norm_num [ACT_FLAG_RIDING_SHELL, ACT_GROUND_POUND, AIR_STEP_CHECK_LEDGE_GRAB,
    AIR_STEP_CHECK_HANG]
  split_ifs with h1 h2
  · exact absurd h1 (by linarith)
  · exact absurd h2 (by linarith)
  · norm_num [Prod.mk.injEq, MarioState.mk.injEq, Vec3.mk.injEq]
    ring

/-- The four quarter steps of one plunge tick of the ground pound descend
from height 10000 to 9950 with no step event. -/
theorem gp_loop :
    air_step_loop baseEnv 0 4 (gpStep 10000) AirStepResult.airNone
      = (gpStep (10000 - 12.5 - 12.5 - 12.5 - 12.5), AirStepResult.airNone) := by
  have s1 := air_step_loop_none_step baseEnv 0 3 (gpStep 10000) (gpStep (10000 - 12.5))
    AirStepResult.airNone (gp_qstep 10000 (by norm_num) (by norm_num))
  have s2 := air_step_loop_none_step baseEnv 0 2 (gpStep (10000 - 12.5))
    (gpStep (10000 - 12.5 - 12.5)) AirStepResult.airNone
    (gp_qstep (10000 - 12.5) (by norm_num) (by norm_num))
  have s3 := air_step_loop_none_step baseEnv 0 1 (gpStep (10000 - 12.5 - 12.5))
    (gpStep (10000 - 12.5 - 12.5 - 12.5)) AirStepResult.airNone
    (gp_qstep (10000 - 12.5 - 12.5) (by norm_num) (by norm_num))
  have s4 := air_step_loop_none_step baseEnv 0 0 (gpStep (10000 - 12.5 - 12.5 - 12.5))
    (gpStep (10000 - 12.5 - 12.5 - 12.5 - 12.5)) AirStepResult.airNone
    (gp_qstep (10000 - 12.5 - 12.5 - 12.5) (by norm_num) (by norm_num))
  exact s1.trans (s2.trans (s3.trans (s4.trans (air_step_loop_zero baseEnv 0
    (gpStep (10000 - 12.5 - 12.5 - 12.5 - 12.5)) AirStepResult.airNone))))

set_option maxHeartbeats 1000000 in
/-- One whole plunge tick of the air stepper for the ground pound: no step
event, and default gravity takes the vertical velocity from -50 to -54. -/
theorem gp_air_step_eval :
    (perform_air_step baseEnv gpMario 0).2 = AirStepResult.airNone
    ∧ (perform_air_step baseEnv gpMario 0).1.vel.y = -54 := by
  have hb : baseEnv.beforePhysStepAir = none := rfl
  have hwall : ({ gpMario with wall := none } : MarioState) = gpStep 10000 := rfl
  have hb1 : (8390825 : ℕ) &&& 1 <<< 14 = 0 := by decide
  have hb1a : (8390825 : ℕ) &&& 16384 = 0 := by decide
  have hb2 : (8390825 : ℕ) &&& (1 <<< 12 ||| 1 <<< 17) = 0 := by decide
  have hb2a : (8390825 : ℕ) &&& 135168 = 0 := by decide
  have hb3 : (65536 : ℕ) &&& 256 = 0 := by decide
  have hb4 : (65536 : ℕ) &&& 8 = 0 := by decide
  have hb5 : (0 : ℕ) &&& 128 = 0 := by decide
  have hloop2 : air_step_loop baseEnv 0 4 { gpMario with wall := none } AirStepResult.airNone
      = (gpStep 9950, AirStepResult.airNone) := by
    rw [hwall, gp_loop]
    norm_num [gpStep, Prod.mk.injEq, MarioState.mk.injEq, Vec3.mk.injEq]
  constructor
  · simp only [perform_air_step, hb, hloop2]
  · simp only [perform_air_step, hb, hloop2]
    norm_num [hb1, hb1a, hb2, hb2a, hb3, hb4, hb5, gpStep, gpMario, baseMario, baseEnv,
      flatFloor, apply_gravity, gravityStep, should_strengthen_gravity_for_jump_ascent,
      apply_vertical_wind, floor_is_vertical_wind, ACT_GROUND_POUND, ACT_FLYING,
      ACT_BUBBLED, ACT_TWIRLING, ACT_SHOT_FROM_CANNON, ACT_LONG_JUMP, ACT_SLIDE_KICK,
      ACT_BBH_ENTER_SPIN, ACT_LAVA_BOOST, ACT_FALL_AFTER_STAR_GRAB, ACT_GETTING_BLOWN,
      ACT_FLAG_METAL_WATER, ACT_FLAG_INTANGIBLE, ACT_FLAG_INVULNERABLE,
      ACT_FLAG_CONTROL_JUMP_HEIGHT, MARIO_UNKNOWN_08, MARIO_WING_CAP,
      MARIO_ACTION_SOUND_PLAYED, INPUT_A_DOWN, SURFACE_VERTICAL_WIND, SURFACE_DEFAULT,
      HAZARD_TYPE_VERTICAL_WIND]

/-- C7 counterexample: the claim fixes the downward velocity at -50 on
every plunge tick, but one plunge-phase tick of `act_ground_pound` (no
landing, no wall) applies default gravity inside `perform_air_step`, so
the vertical velocity leaves -50 and becomes -54. -/
theorem act_ground_pound_plunge_counterexample :
    gpMario.actionState = 1
    ∧ gpMario.action = ACT_GROUND_POUND
    ∧ gpMario.vel.y = -50
    ∧ (act_ground_pound baseEnv gpMario).1.vel.y = -54
    ∧ ¬ (act_ground_pound baseEnv gpMario).1.vel.y = -50 := by
  have hcne1 : ¬ (AirStepResult.airNone = AirStepResult.landed) := by decide
  have hcne2 : ¬ (AirStepResult.airNone = AirStepResult.hitWall) := by decide
  have hgp : (act_ground_pound baseEnv gpMario).1.vel.y = -54 := by
    simp only [act_ground_pound, play_sound_if_no_flag]
    rw [if_neg (by decide : ¬ (gpMario.flags &&& MARIO_ACTION_SOUND_PLAYED = 0))]
    rw [if_neg (by decide : ¬ (gpMario.actionState = 0))]
    simp only [gp_air_step_eval.1]
    rw [if_neg hcne1, if_neg hcne2]
    exact gp_air_step_eval.2
  refine ⟨rfl, rfl, rfl, hgp, ?_⟩
  rw [hgp]
  norm_num

/-- C7 (amended): `act_ground_pound` is a two-phase state machine on its
action state. In the rise phase (action state 0) the handler fixes the
vertical velocity at -50 and the forward velocity at 0 on every tick, so
the plunge begins at -50; the plunge phase (action state 1) instead runs
the air stepper, whose gravity policy applies the default rule to the
ground-pound action — each plunge tick lowers the vertical velocity by 4,
floored at -75 — so the downward velocity is -50 only as the plunge
starts and then accelerates toward -75. -/
theorem act_ground_pound_two_phase (env : Env) (m : MarioState)
    (hhook : env.gravityHook = none) :
    (m.actionState = 0 →
       (act_ground_pound env m).1.vel.y = -50
       ∧ (act_ground_pound env m).1.forwardVel = 0)
    ∧ (m.action = ACT_GROUND_POUND → m.vel.y < 0 →
       (m.flags &&& MARIO_WING_CAP = 0 ∨ m.input &&& INPUT_A_DOWN = 0) →
       (apply_gravity env m).vel.y
         = (if m.vel.y - 4 < -75 then (-75 : ℚ) else m.vel.y - 4)) := by
  constructor
  · intro h0
    simp only [act_ground_pound, play_sound_if_no_flag, mario_set_forward_vel]
    split_ifs <;> first | exact ⟨rfl, rfl⟩ | exact absurd h0 (by assumption)
  · intro hact hv hwing
    have hss : should_strengthen_gravity_for_jump_ascent m = false := by
      unfold should_strengthen_gravity_for_jump_ascent
      split_ifs with hA hB hC
      any_goals rfl
      exact absurd hC.2 (by linarith)
    have hnw : ¬ (m.flags &&& MARIO_WING_CAP ≠ 0 ∧ m.vel.y < 0
                  ∧ m.input &&& INPUT_A_DOWN ≠ 0) := by
      rintro ⟨c1, -, c3⟩
      rcases hwing with h | h
      · exact c1 h
      · exact c3 h
    simp only [apply_gravity, hhook, hact, hss]
    rw [if_neg (by norm_num [ACT_GROUND_POUND, ACT_TWIRLING] :
          ¬ (ACT_GROUND_POUND = ACT_TWIRLING ∧ m.vel.y < 0))]
    rw [if_neg (by decide : ¬ (ACT_GROUND_POUND = ACT_SHOT_FROM_CANNON))]
    rw [if_neg (by decide : ¬ (ACT_GROUND_POUND = ACT_LONG_JUMP
          ∨ ACT_GROUND_POUND = ACT_SLIDE_KICK ∨ ACT_GROUND_POUND = ACT_BBH_ENTER_SPIN))]
    rw [if_neg (by decide : ¬ (ACT_GROUND_POUND = ACT_LAVA_BOOST
          ∨ ACT_GROUND_POUND = ACT_FALL_AFTER_STAR_GRAB))]
    rw [if_neg (by decide : ¬ (ACT_GROUND_POUND = ACT_GETTING_BLOWN))]
    rw [if_neg (by norm_num : ¬ (false = true))]
    rw [if_neg (by decide : ¬ (ACT_GROUND_POUND &&& ACT_FLAG_METAL_WATER ≠ 0))]
    rw [if_neg hnw]
    rfl

/-- A rise-phase ground-pound actor (action state 0). -/
def gpRiseMario : MarioState :=
  { baseMario with
    action := ACT_GROUND_POUND, actionState := 0, flags := MARIO_ACTION_SOUND_PLAYED,
    pos := { x := 0, y := 100, z := 0 }, vel := { x := 0, y := 30, z := 0 },
    ceilHeight := 10000 }

/-- Witness for the amended C7: a rise-phase tick pins the vertical
velocity at -50, and one default-gravity application to the plunging
`gpMario` (vertical velocity -50) yields -54. -/
theorem act_ground_pound_two_phase_witness :
    (act_ground_pound baseEnv gpRiseMario).1.vel.y = -50
    ∧ (act_ground_pound baseEnv gpRiseMario).1.forwardVel = 0
    ∧ (apply_gravity baseEnv gpMario).vel.y = -54 := by
  have h1 := (act_ground_pound_two_phase baseEnv gpRiseMario rfl).1 rfl
  have h2 := (act_ground_pound_two_phase baseEnv gpMario rfl).2 rfl
    (by norm_num [gpMario, baseMario]) (Or.inl (by decide))
  refine ⟨h1.1, h1.2, h2.trans ?_⟩
  norm_num [gpMario, baseMario]
